import Mathlib

/-!
# Azure SDK for Go samples: activity log alert, network security groups, Service Fabric clusters

A shallow embedding of the three sample programs

* `sdk/resourcemanager/monitor/activity_log_alert/main.go`
* `sdk/resourcemanager/network/securitygroups/main.go`
* `sdk/resourcemanager/servicefabric/clusters/main.go`

Every interaction with the Azure SDK (credential acquisition, client construction,
management-plane calls, `PollUntilDone`) goes through a `Provider`: a deterministic state
machine that answers one `Call` at a time.  The embedding records every call together with its
answer in a trace.  Go pointers are `Option`s, Go `error` values are `GoError`s, `log.Fatal`
and a nil-pointer dereference end the run with `Exit.fatal` and `Exit.panic`.

The file has three parts: the embedding of the programs (one definition per Go function,
with the same name); the vocabulary of the properties (operations, traces, two mock
providers); and the theorems.  The properties of whole runs are obtained from one symbolic
execution per program (`activityLogAlert_main_summary`, `securityGroups_main_summary`,
`clusters_main_summary`), which follows `main` through every answer the provider can give.
-/

set_option autoImplicit false

namespace AzureSamples

/-! ## Go runtime -/

/-- A Go `error` value, represented by the text its `Error()` method returns. -/
structure GoError where
  msg : String
deriving DecidableEq

/-- The call `fmt.Errorf(format ++ "%v", err)`: a new error whose text is the format text
followed by the text of `err`. -/
def fmtErrorf (format : String) (err : GoError) : GoError :=
  ⟨format ++ err.msg⟩

/-- The builtin `len` on a Go string: its length in bytes. -/
def goLen (s : String) : Nat := s.utf8ByteSize

/-- The process environment: a variable is either unset or bound to a string. -/
abbrev Env := String → Option String

/-- The call `os.Getenv(key)`: the value of the variable, empty when it is unset. -/
def osGetenv (env : Env) (key : String) : String :=
  (env key).getD ""

/-- How a run of `main` ends. -/
inductive Exit
  /-- `main` returned. -/
  | ok
  /-- `log.Fatal` was called with this message. -/
  | fatal (msg : String)
  /-- A nil pointer was dereferenced. -/
  | panic
deriving DecidableEq

/-- The exit status of the process: 0 when `main` returns, 1 after `log.Fatal` (which calls
`os.Exit(1)`), 2 after an unrecovered panic. -/
def Exit.code : Exit → Nat
  | .ok => 0
  | .fatal _ => 1
  | .panic => 2

/-! ## Resource descriptors -/

/-- The type `armresources.ResourceGroup` (the fields the samples touch). -/
structure ResourceGroup where
  location : Option String := none
  id : Option String := none
  name : Option String := none
deriving DecidableEq

/-- The type `armmonitor.AlertRuleAnyOfOrLeafCondition`. -/
structure AlertRuleAnyOfOrLeafCondition where
  field : Option String := none
  equals : Option String := none
deriving DecidableEq

/-- The type `armmonitor.AlertRuleAllOfCondition`. -/
structure AlertRuleAllOfCondition where
  allOf : List AlertRuleAnyOfOrLeafCondition := []
deriving DecidableEq

/-- The type `armmonitor.ActionGroupAutoGenerated`. -/
structure ActionGroupAutoGenerated where
  actionGroupID : Option String := none
deriving DecidableEq

/-- The type `armmonitor.ActionList`. -/
structure ActionList where
  actionGroups : List ActionGroupAutoGenerated := []
deriving DecidableEq

/-- The type `armmonitor.AlertRuleProperties`. -/
structure AlertRuleProperties where
  scopes : List String := []
  enabled : Option Bool := none
  condition : Option AlertRuleAllOfCondition := none
  actions : Option ActionList := none
  description : Option String := none
deriving DecidableEq

/-- The type `armmonitor.ActivityLogAlertResource`. -/
structure ActivityLogAlertResource where
  location : Option String := none
  properties : Option AlertRuleProperties := none
  id : Option String := none
  name : Option String := none
deriving DecidableEq

/-- The type `armnetwork.SecurityRuleProtocol` (the values the sample uses). -/
inductive SecurityRuleProtocol
  | tcp
  | asterisk
deriving DecidableEq

/-- The type `armnetwork.SecurityRuleAccess`. -/
inductive SecurityRuleAccess
  | allow
  | deny
deriving DecidableEq

/-- The type `armnetwork.SecurityRuleDirection`. -/
inductive SecurityRuleDirection
  | inbound
  | outbound
deriving DecidableEq

/-- The type `armnetwork.SecurityRulePropertiesFormat`. -/
structure SecurityRulePropertiesFormat where
  protocol : Option SecurityRuleProtocol := none
  sourceAddressPrefix : Option String := none
  sourcePortRange : Option String := none
  destinationAddressPrefix : Option String := none
  destinationPortRange : Option String := none
  access : Option SecurityRuleAccess := none
  direction : Option SecurityRuleDirection := none
  priority : Option Int := none
  description : Option String := none
deriving DecidableEq

/-- The type `armnetwork.SecurityRule`. -/
structure SecurityRule where
  name : Option String := none
  properties : Option SecurityRulePropertiesFormat := none
  id : Option String := none
deriving DecidableEq

/-- The type `armnetwork.SecurityGroupPropertiesFormat`. -/
structure SecurityGroupPropertiesFormat where
  securityRules : List SecurityRule := []
deriving DecidableEq

/-- The type `armnetwork.SecurityGroup`. -/
structure SecurityGroup where
  location : Option String := none
  properties : Option SecurityGroupPropertiesFormat := none
  id : Option String := none
  name : Option String := none
deriving DecidableEq

/-- The type `armservicefabric.EndpointRangeDescription`. -/
structure EndpointRangeDescription where
  startPort : Option Int := none
  endPort : Option Int := none
deriving DecidableEq

/-- The type `armservicefabric.DurabilityLevel` (the value the sample uses). -/
inductive DurabilityLevel
  | bronze
deriving DecidableEq

/-- The type `armservicefabric.ReliabilityLevel` (the value the sample uses). -/
inductive ReliabilityLevel
  | silver
deriving DecidableEq

/-- The type `armservicefabric.UpgradeMode` (the value the sample uses). -/
inductive UpgradeMode
  | automatic
deriving DecidableEq

/-- The type `armservicefabric.NodeTypeDescription`. -/
structure NodeTypeDescription where
  name : Option String := none
  clientConnectionEndpointPort : Option Int := none
  httpGatewayEndpointPort : Option Int := none
  applicationPorts : Option EndpointRangeDescription := none
  ephemeralPorts : Option EndpointRangeDescription := none
  isPrimary : Option Bool := none
  vmInstanceCount : Option Int := none
  durabilityLevel : Option DurabilityLevel := none
deriving DecidableEq

/-- The type `armservicefabric.SettingsParameterDescription`. -/
structure SettingsParameterDescription where
  name : Option String := none
  value : Option String := none
deriving DecidableEq

/-- The type `armservicefabric.SettingsSectionDescription`. -/
structure SettingsSectionDescription where
  name : Option String := none
  parameters : List SettingsParameterDescription := []
deriving DecidableEq

/-- The type `armservicefabric.DiagnosticsStorageAccountConfig`. -/
structure DiagnosticsStorageAccountConfig where
  storageAccountName : Option String := none
  protectedAccountKeyName : Option String := none
  blobEndpoint : Option String := none
  queueEndpoint : Option String := none
  tableEndpoint : Option String := none
deriving DecidableEq

/-- The type `armservicefabric.ClusterProperties`. -/
structure ClusterProperties where
  managementEndpoint : Option String := none
  nodeTypes : List NodeTypeDescription := []
  fabricSettings : List SettingsSectionDescription := []
  diagnosticsStorageAccountConfig : Option DiagnosticsStorageAccountConfig := none
  reliabilityLevel : Option ReliabilityLevel := none
  upgradeMode : Option UpgradeMode := none
deriving DecidableEq

/-- The type `armservicefabric.Cluster`. -/
structure Cluster where
  location : Option String := none
  properties : Option ClusterProperties := none
  id : Option String := none
  name : Option String := none
deriving DecidableEq

/-! ## The SDK seen as a provider -/

/-- An `azcore.TokenCredential`, identified by a number. -/
structure Credential where
  token : Nat
deriving DecidableEq

/-- A client (or client factory) of the SDK: it is bound to the subscription and the
credential it was constructed with. -/
structure ArmClient where
  subscriptionID : String
  credential : Credential
deriving DecidableEq

/-- The handle of a long-running operation (`*runtime.Poller[T]`), identified by the path of
the resource the operation works on. -/
structure Poller where
  target : List String
deriving DecidableEq

/-- Every request the samples send to the SDK, with its arguments.  A request made through a
client carries the subscription the client is bound to. -/
inductive Call
  | newDefaultAzureCredential
  | newResourceGroupsClient (subscriptionID : String) (cred : Credential)
  | newActivityLogAlertsClient (subscriptionID : String) (cred : Credential)
  | newResourcesClientFactory (subscriptionID : String) (cred : Credential)
  | newNetworkClientFactory (subscriptionID : String) (cred : Credential)
  | newServiceFabricClientFactory (subscriptionID : String) (cred : Credential)
  | resourceGroupsCreateOrUpdate (subscriptionID resourceGroupName : String)
      (parameters : ResourceGroup)
  | resourceGroupsBeginDelete (subscriptionID resourceGroupName : String)
  | resourceGroupsDeletePollUntilDone (poller : Poller)
  | activityLogAlertsCreateOrUpdate (subscriptionID resourceGroupName alertName : String)
      (parameters : ActivityLogAlertResource)
  | activityLogAlertsGet (subscriptionID resourceGroupName alertName : String)
  | securityGroupsBeginCreateOrUpdate (subscriptionID resourceGroupName groupName : String)
      (parameters : SecurityGroup)
  | securityGroupsPollUntilDone (poller : Poller)
  | securityRulesBeginCreateOrUpdate
      (subscriptionID resourceGroupName groupName ruleName : String) (parameters : SecurityRule)
  | securityRulesPollUntilDone (poller : Poller)
  | clustersBeginCreateOrUpdate (subscriptionID resourceGroupName clusterName : String)
      (parameters : Cluster)
  | clustersPollUntilDone (poller : Poller)
  | clustersGet (subscriptionID resourceGroupName clusterName : String)
deriving DecidableEq

/-- What a call yields when it does not fail. -/
def Call.Result : Call → Type
  | .newDefaultAzureCredential => Credential
  | .newResourceGroupsClient _ _ => Unit
  | .newActivityLogAlertsClient _ _ => Unit
  | .newResourcesClientFactory _ _ => Unit
  | .newNetworkClientFactory _ _ => Unit
  | .newServiceFabricClientFactory _ _ => Unit
  | .resourceGroupsCreateOrUpdate _ _ _ => ResourceGroup
  | .resourceGroupsBeginDelete _ _ => Poller
  | .resourceGroupsDeletePollUntilDone _ => Unit
  | .activityLogAlertsCreateOrUpdate _ _ _ _ => ActivityLogAlertResource
  | .activityLogAlertsGet _ _ _ => ActivityLogAlertResource
  | .securityGroupsBeginCreateOrUpdate _ _ _ _ => Poller
  | .securityGroupsPollUntilDone _ => SecurityGroup
  | .securityRulesBeginCreateOrUpdate _ _ _ _ _ => Poller
  | .securityRulesPollUntilDone _ => SecurityRule
  | .clustersBeginCreateOrUpdate _ _ _ _ => Poller
  | .clustersPollUntilDone _ => Cluster
  | .clustersGet _ _ _ => Cluster

/-- A provider: from its current state it answers a call with an error or a result, and moves
to a new state.  Any mock of the SDK is a provider. -/
structure Provider (σ : Type) where
  handle : σ → (c : Call) → Except GoError c.Result × σ

/-- A result of a call, whatever its type. -/
inductive Value
  | unit
  | credential (cred : Credential)
  | poller (poller : Poller)
  | resourceGroup (descriptor : ResourceGroup)
  | activityLogAlert (descriptor : ActivityLogAlertResource)
  | securityGroup (descriptor : SecurityGroup)
  | securityRule (descriptor : SecurityRule)
  | cluster (descriptor : Cluster)
deriving DecidableEq

/-- The result of a call as a `Value`. -/
def Call.wrap : (c : Call) → c.Result → Value
  | .newDefaultAzureCredential, r => .credential r
  | .newResourceGroupsClient _ _, _ => .unit
  | .newActivityLogAlertsClient _ _, _ => .unit
  | .newResourcesClientFactory _ _, _ => .unit
  | .newNetworkClientFactory _ _, _ => .unit
  | .newServiceFabricClientFactory _ _, _ => .unit
  | .resourceGroupsCreateOrUpdate _ _ _, r => .resourceGroup r
  | .resourceGroupsBeginDelete _ _, r => .poller r
  | .resourceGroupsDeletePollUntilDone _, _ => .unit
  | .activityLogAlertsCreateOrUpdate _ _ _ _, r => .activityLogAlert r
  | .activityLogAlertsGet _ _ _, r => .activityLogAlert r
  | .securityGroupsBeginCreateOrUpdate _ _ _ _, r => .poller r
  | .securityGroupsPollUntilDone _, r => .securityGroup r
  | .securityRulesBeginCreateOrUpdate _ _ _ _ _, r => .poller r
  | .securityRulesPollUntilDone _, r => .securityRule r
  | .clustersBeginCreateOrUpdate _ _ _ _, r => .poller r
  | .clustersPollUntilDone _, r => .cluster r
  | .clustersGet _ _ _, r => .cluster r

/-- The `ID` field of a value that is a resource descriptor. -/
def Value.descriptorID : Value → Option (Option String)
  | .resourceGroup d => some d.id
  | .activityLogAlert d => some d.id
  | .securityGroup d => some d.id
  | .securityRule d => some d.id
  | .cluster d => some d.id
  | _ => none

/-- What the provider answered to a call. -/
inductive Outcome
  | failed (err : GoError)
  | returned (value : Value)
deriving DecidableEq

/-- The provider's answer to call `c` as an `Outcome`. -/
def Call.outcome (c : Call) : Except GoError c.Result → Outcome
  | .ok r => .returned (c.wrap r)
  | .error err => .failed err

/-- A recorded call and the answer it got. -/
structure Event where
  call : Call
  outcome : Outcome
deriving DecidableEq

/-- The error a recorded call returned, `none` when it succeeded. -/
def Event.err (ev : Event) : Option GoError :=
  match ev.outcome with
  | .failed err => some err
  | .returned _ => none

/-- The identifier of the descriptor a recorded call returned, when it returned one that
carries an identifier. -/
def Event.returnedID (ev : Event) : Option String :=
  match ev.outcome with
  | .failed _ => none
  | .returned v => v.descriptorID.join

/-- The recorded call returned a descriptor whose `ID` is nil. -/
def Event.missingID (ev : Event) : Bool :=
  match ev.outcome with
  | .failed _ => false
  | .returned v => v.descriptorID == some none

/-- The state of a run: the provider's state, the calls made so far (oldest first) and the
lines written with `log.Println`. -/
structure World (σ : Type) where
  state : σ
  trace : List Event
  log : List String

/-- The world before the program starts. -/
def World.init {σ : Type} (s : σ) : World σ :=
  { state := s, trace := [], log := [] }

/-- Send one call to the provider and record it with its answer. -/
def invoke {σ : Type} (p : Provider σ) (c : Call) (w : World σ) :
    Except GoError c.Result × World σ :=
  match p.handle w.state c with
  | (.ok r, s) =>
    (.ok r, { w with state := s, trace := w.trace ++ [⟨c, .returned (c.wrap r)⟩] })
  | (.error e, s) =>
    (.error e, { w with state := s, trace := w.trace ++ [⟨c, .failed e⟩] })

/-- The call `log.Println(args...)`: the operands separated by blanks, as one line. -/
def logPrintln {σ : Type} (args : List String) (w : World σ) : World σ :=
  { w with log := w.log ++ [" ".intercalate args] }

/-! ## `activity_log_alert/main.go` -/

namespace ActivityLogAlert

/-- The package-level variables of the program. -/
structure Globals where
  subscriptionID : String := ""
  location : String := "westus"
  resourceGroupName : String := "sample-resource-group"
  activityLogAlertName : String := "sample-activity-log-alert"
deriving DecidableEq

/-- The descriptor `createActivityLogAlert` submits: the literal
`armmonitor.ActivityLogAlertResource` in its body. -/
def activityLogAlertParameters (g : Globals) : ActivityLogAlertResource :=
  { location := some "global"
    properties := some
      { scopes := ["subscriptions/" ++ g.subscriptionID]
        enabled := some true
        condition := some
          { allOf :=
              [ { field := some "category", equals := some "Administrative" },
                { field := some "level", equals := some "Error" } ] }
        actions := some { actionGroups := [] }
        description := some "Sample activity log alert description" } }

/-- The function `createActivityLogAlert`. -/
def createActivityLogAlert {σ : Type} (p : Provider σ) (g : Globals) (cred : Credential)
    (w : World σ) : Except GoError ActivityLogAlertResource × World σ :=
  match invoke p (.newActivityLogAlertsClient g.subscriptionID cred) w with
  | (.error err, w) => (.error err, w)
  | (.ok _, w) =>
    let activityLogAlert : ArmClient := ⟨g.subscriptionID, cred⟩
    match invoke p
      (.activityLogAlertsCreateOrUpdate activityLogAlert.subscriptionID
        g.resourceGroupName
        g.activityLogAlertName
        (activityLogAlertParameters g)) w with
    | (.error err, w) => (.error err, w)
    | (.ok resp, w) => (.ok resp, w)

/-- The function `getActivityLogAlert`. -/
def getActivityLogAlert {σ : Type} (p : Provider σ) (g : Globals) (cred : Credential)
    (w : World σ) : Except GoError ActivityLogAlertResource × World σ :=
  match invoke p (.newActivityLogAlertsClient g.subscriptionID cred) w with
  | (.error err, w) => (.error err, w)
  | (.ok _, w) =>
    let activityLogAlert : ArmClient := ⟨g.subscriptionID, cred⟩
    match invoke p
      (.activityLogAlertsGet activityLogAlert.subscriptionID g.resourceGroupName
        g.activityLogAlertName) w with
    | (.error err, w) => (.error err, w)
    | (.ok resp, w) => (.ok resp, w)

/-- The function `createResourceGroup`. -/
def createResourceGroup {σ : Type} (p : Provider σ) (g : Globals) (cred : Credential)
    (w : World σ) : Except GoError ResourceGroup × World σ :=
  match invoke p (.newResourceGroupsClient g.subscriptionID cred) w with
  | (.error err, w) => (.error err, w)
  | (.ok _, w) =>
    let resourceGroupClient : ArmClient := ⟨g.subscriptionID, cred⟩
    match invoke p
      (.resourceGroupsCreateOrUpdate resourceGroupClient.subscriptionID
        g.resourceGroupName
        { location := some g.location }) w with
    | (.error err, w) => (.error err, w)
    | (.ok resourceGroupResp, w) => (.ok resourceGroupResp, w)

/-- The function `cleanup`; `none` is the nil error. -/
def cleanup {σ : Type} (p : Provider σ) (g : Globals) (cred : Credential)
    (w : World σ) : Option GoError × World σ :=
  match invoke p (.newResourceGroupsClient g.subscriptionID cred) w with
  | (.error err, w) => (some err, w)
  | (.ok _, w) =>
    let resourceGroupClient : ArmClient := ⟨g.subscriptionID, cred⟩
    match invoke p
      (.resourceGroupsBeginDelete resourceGroupClient.subscriptionID g.resourceGroupName) w with
    | (.error err, w) => (some err, w)
    | (.ok pollerResp, w) =>
      match invoke p (.resourceGroupsDeletePollUntilDone pollerResp) w with
      | (.error err, w) => (some err, w)
      | (.ok _, w) => (none, w)

/-- The function `main`, run in environment `env` against provider `p` started in state `s`. -/
def main {σ : Type} (env : Env) (p : Provider σ) (s : σ) : Exit × World σ :=
  let w := World.init s
  let g : Globals := { subscriptionID := osGetenv env "AZURE_SUBSCRIPTION_ID" }
  if goLen g.subscriptionID == 0 then
    (.fatal "AZURE_SUBSCRIPTION_ID is not set.", w)
  else
  match invoke p .newDefaultAzureCredential w with
  | (.error err, w) => (.fatal err.msg, w)
  | (.ok cred, w) =>
  match createResourceGroup p g cred w with
  | (.error err, w) => (.fatal err.msg, w)
  | (.ok resourceGroup, w) =>
  match resourceGroup.id with
  | none => (.panic, w)
  | some resourceGroupID =>
  let w := logPrintln ["resources group:", resourceGroupID] w
  match createActivityLogAlert p g cred w with
  | (.error err, w) => (.fatal err.msg, w)
  | (.ok activityLogAlert, w) =>
  match activityLogAlert.id with
  | none => (.panic, w)
  | some activityLogAlertID =>
  let w := logPrintln ["activity log alert:", activityLogAlertID] w
  match getActivityLogAlert p g cred w with
  | (.error err, w) => (.fatal err.msg, w)
  | (.ok activityLogAlert, w) =>
  match activityLogAlert.id with
  | none => (.panic, w)
  | some activityLogAlertID =>
  let w := logPrintln ["get activity log alert:", activityLogAlertID] w
  let keepResource := osGetenv env "KEEP_RESOURCE"
  if goLen keepResource == 0 then
    match cleanup p g cred w with
    | (some err, w) => (.fatal err.msg, w)
    | (none, w) => (.ok, logPrintln ["cleaned up successfully."] w)
  else
    (.ok, w)

end ActivityLogAlert

/-! ## `securitygroups/main.go` -/

namespace SecurityGroups

/-- The package-level variables of the program, once `main` has set the subscription and
built the clients. -/
structure Globals where
  subscriptionID : String := ""
  location : String := "westus"
  resourceGroupName : String := "sample-resources-group"
  securityGroupName : String := "sample-network-security-group"
  resourceGroupClient : ArmClient
  securityGroupsClient : ArmClient
  securityRulesClient : ArmClient
deriving DecidableEq

/-- The descriptor `createNetworkSecurityGroup` submits: the literal
`armnetwork.SecurityGroup` in its body. -/
def securityGroupParameters (g : Globals) : SecurityGroup :=
  { location := some g.location
    properties := some
      { securityRules :=
          [ { name := some "allow_ssh"
              properties := some
                { protocol := some .tcp
                  sourceAddressPrefix := some "0.0.0.0/0"
                  sourcePortRange := some "1-65535"
                  destinationAddressPrefix := some "0.0.0.0/0"
                  destinationPortRange := some "22"
                  access := some .allow
                  direction := some .inbound
                  priority := some 100 } },
            { name := some "allow_https"
              properties := some
                { protocol := some .tcp
                  sourceAddressPrefix := some "0.0.0.0/0"
                  sourcePortRange := some "1-65535"
                  destinationAddressPrefix := some "0.0.0.0/0"
                  destinationPortRange := some "443"
                  access := some .allow
                  direction := some .inbound
                  priority := some 200 } } ] } }

/-- The function `createNetworkSecurityGroup`. -/
def createNetworkSecurityGroup {σ : Type} (p : Provider σ) (g : Globals) (w : World σ) :
    Except GoError SecurityGroup × World σ :=
  match invoke p
    (.securityGroupsBeginCreateOrUpdate g.securityGroupsClient.subscriptionID
      g.resourceGroupName
      g.securityGroupName
      (securityGroupParameters g)) w with
  | (.error err, w) => (.error err, w)
  | (.ok pollerResp, w) =>
    match invoke p (.securityGroupsPollUntilDone pollerResp) w with
    | (.error err, w) => (.error err, w)
    | (.ok resp, w) => (.ok resp, w)

/-- The descriptor `createSSHRule` submits: the literal `armnetwork.SecurityRule` in its
body. -/
def sshRuleParameters : SecurityRule :=
  { properties := some
      { access := some .allow
        destinationAddressPrefix := some "*"
        destinationPortRange := some "22"
        direction := some .inbound
        description := some "Allow SSH"
        priority := some 103
        protocol := some .tcp
        sourceAddressPrefix := some "*"
        sourcePortRange := some "*" } }

/-- The function `createSSHRule`. -/
def createSSHRule {σ : Type} (p : Provider σ) (g : Globals) (w : World σ) :
    Except GoError SecurityRule × World σ :=
  match invoke p
    (.securityRulesBeginCreateOrUpdate g.securityRulesClient.subscriptionID
      g.resourceGroupName
      g.securityGroupName
      "ALLOW-SSH"
      sshRuleParameters) w with
  | (.error err, w) => (.error (fmtErrorf "cannot create SSH security rule: " err), w)
  | (.ok pollerResp, w) =>
    match invoke p (.securityRulesPollUntilDone pollerResp) w with
    | (.error err, w) =>
      (.error
        (fmtErrorf "cannot get security rule create or update future response: " err), w)
    | (.ok resp, w) => (.ok resp, w)

/-- The descriptor `createHTTPRule` submits: the literal `armnetwork.SecurityRule` in its
body. -/
def httpRuleParameters : SecurityRule :=
  { properties := some
      { access := some .allow
        destinationAddressPrefix := some "*"
        destinationPortRange := some "80"
        direction := some .inbound
        description := some "Allow HTTP"
        priority := some 101
        protocol := some .tcp
        sourceAddressPrefix := some "*"
        sourcePortRange := some "*" } }

/-- The function `createHTTPRule`. -/
def createHTTPRule {σ : Type} (p : Provider σ) (g : Globals) (w : World σ) :
    Except GoError SecurityRule × World σ :=
  match invoke p
    (.securityRulesBeginCreateOrUpdate g.securityRulesClient.subscriptionID
      g.resourceGroupName
      g.securityGroupName
      "ALLOW-HTTP"
      httpRuleParameters) w with
  | (.error err, w) => (.error (fmtErrorf "cannot create HTTP security rule: " err), w)
  | (.ok pollerResp, w) =>
    match invoke p (.securityRulesPollUntilDone pollerResp) w with
    | (.error err, w) =>
      (.error
        (fmtErrorf "cannot get security rule create or update future response: " err), w)
    | (.ok resp, w) => (.ok resp, w)

/-- The descriptor `createSQLRule` submits: the literal `armnetwork.SecurityRule` in its
body. -/
def sqlRuleParameters : SecurityRule :=
  { properties := some
      { access := some .allow
        destinationAddressPrefix := some "*"
        destinationPortRange := some "1433"
        direction := some .inbound
        description := some "Allow SQL"
        priority := some 102
        protocol := some .tcp
        sourceAddressPrefix := some "*"
        sourcePortRange := some "*" } }

/-- The function `createSQLRule`. -/
def createSQLRule {σ : Type} (p : Provider σ) (g : Globals) (w : World σ) :
    Except GoError SecurityRule × World σ :=
  match invoke p
    (.securityRulesBeginCreateOrUpdate g.securityRulesClient.subscriptionID
      g.resourceGroupName
      g.securityGroupName
      "ALLOW-SQL"
      sqlRuleParameters) w with
  | (.error err, w) => (.error (fmtErrorf "cannot create SQL security rule: " err), w)
  | (.ok pollerResp, w) =>
    match invoke p (.securityRulesPollUntilDone pollerResp) w with
    | (.error err, w) =>
      (.error
        (fmtErrorf "cannot get security rule create or update future response: " err), w)
    | (.ok resp, w) => (.ok resp, w)

/-- The descriptor `createDenyOutRule` submits: the literal `armnetwork.SecurityRule` in its
body. -/
def denyOutRuleParameters : SecurityRule :=
  { properties := some
      { access := some .deny
        destinationAddressPrefix := some "*"
        destinationPortRange := some "*"
        direction := some .outbound
        description := some "Deny outbound traffic"
        priority := some 100
        protocol := some .asterisk
        sourceAddressPrefix := some "*"
        sourcePortRange := some "*" } }

/-- The function `createDenyOutRule`. -/
def createDenyOutRule {σ : Type} (p : Provider σ) (g : Globals) (w : World σ) :
    Except GoError SecurityRule × World σ :=
  match invoke p
    (.securityRulesBeginCreateOrUpdate g.securityRulesClient.subscriptionID
      g.resourceGroupName
      g.securityGroupName
      "DENY-OUT"
      denyOutRuleParameters) w with
  | (.error err, w) => (.error (fmtErrorf "cannot create deny out security rule: " err), w)
  | (.ok pollerResp, w) =>
    match invoke p (.securityRulesPollUntilDone pollerResp) w with
    | (.error err, w) =>
      (.error
        (fmtErrorf "cannot get security rule create or update future response: " err), w)
    | (.ok resp, w) => (.ok resp, w)

/-- The function `createResourceGroup`. -/
def createResourceGroup {σ : Type} (p : Provider σ) (g : Globals) (w : World σ) :
    Except GoError ResourceGroup × World σ :=
  match invoke p
    (.resourceGroupsCreateOrUpdate g.resourceGroupClient.subscriptionID
      g.resourceGroupName
      { location := some g.location }) w with
  | (.error err, w) => (.error err, w)
  | (.ok resourceGroupResp, w) => (.ok resourceGroupResp, w)

/-- The function `cleanup`; `none` is the nil error. -/
def cleanup {σ : Type} (p : Provider σ) (g : Globals) (w : World σ) :
    Option GoError × World σ :=
  match invoke p
    (.resourceGroupsBeginDelete g.resourceGroupClient.subscriptionID g.resourceGroupName) w with
  | (.error err, w) => (some err, w)
  | (.ok pollerResp, w) =>
    match invoke p (.resourceGroupsDeletePollUntilDone pollerResp) w with
    | (.error err, w) => (some err, w)
    | (.ok _, w) => (none, w)

/-- The function `main`, run in environment `env` against provider `p` started in state `s`. -/
def main {σ : Type} (env : Env) (p : Provider σ) (s : σ) : Exit × World σ :=
  let w := World.init s
  let subscriptionID := osGetenv env "AZURE_SUBSCRIPTION_ID"
  if goLen subscriptionID == 0 then
    (.fatal "AZURE_SUBSCRIPTION_ID is not set.", w)
  else
  match invoke p .newDefaultAzureCredential w with
  | (.error err, w) => (.fatal err.msg, w)
  | (.ok cred, w) =>
  match invoke p (.newResourcesClientFactory subscriptionID cred) w with
  | (.error err, w) => (.fatal err.msg, w)
  | (.ok _, w) =>
  let resourcesClientFactory : ArmClient := ⟨subscriptionID, cred⟩
  match invoke p (.newNetworkClientFactory subscriptionID cred) w with
  | (.error err, w) => (.fatal err.msg, w)
  | (.ok _, w) =>
  let networkClientFactory : ArmClient := ⟨subscriptionID, cred⟩
  let g : Globals :=
    { subscriptionID := subscriptionID
      resourceGroupClient := resourcesClientFactory
      securityGroupsClient := networkClientFactory
      securityRulesClient := networkClientFactory }
  match createResourceGroup p g w with
  | (.error err, w) => (.fatal err.msg, w)
  | (.ok resourceGroup, w) =>
  match resourceGroup.id with
  | none => (.panic, w)
  | some resourceGroupID =>
  let w := logPrintln ["resources group:", resourceGroupID] w
  match createNetworkSecurityGroup p g w with
  | (.error err, w) => (.fatal err.msg, w)
  | (.ok networkSecurityGroup, w) =>
  match networkSecurityGroup.id with
  | none => (.panic, w)
  | some networkSecurityGroupID =>
  let w := logPrintln ["network security group:", networkSecurityGroupID] w
  match createSSHRule p g w with
  | (.error err, w) => (.fatal err.msg, w)
  | (.ok sshRule, w) =>
  match sshRule.id with
  | none => (.panic, w)
  | some sshRuleID =>
  let w := logPrintln ["SSH:", sshRuleID] w
  match createHTTPRule p g w with
  | (.error err, w) => (.fatal err.msg, w)
  | (.ok httpRule, w) =>
  match httpRule.id with
  | none => (.panic, w)
  | some httpRuleID =>
  let w := logPrintln ["HTTP:", httpRuleID] w
  match createSQLRule p g w with
  | (.error err, w) => (.fatal err.msg, w)
  | (.ok sqlRule, w) =>
  match sqlRule.id with
  | none => (.panic, w)
  | some sqlRuleID =>
  let w := logPrintln ["SQL:", sqlRuleID] w
  match createDenyOutRule p g w with
  | (.error err, w) => (.fatal err.msg, w)
  | (.ok denyOutRule, w) =>
  match denyOutRule.id with
  | none => (.panic, w)
  | some denyOutRuleID =>
  let w := logPrintln ["Deny Out:", denyOutRuleID] w
  let keepResource := osGetenv env "KEEP_RESOURCE"
  if goLen keepResource == 0 then
    match cleanup p g w with
    | (some err, w) => (.fatal err.msg, w)
    | (none, w) => (.ok, logPrintln ["cleaned up successfully."] w)
  else
    (.ok, w)

end SecurityGroups

/-! ## `servicefabric/clusters/main.go` -/

namespace Clusters

/-- The package-level variables of the program, once `main` has set the subscription and
built the clients. -/
structure Globals where
  subscriptionID : String := ""
  location : String := "eastus"
  resourceGroupName : String := "sample-resource-group"
  clusterName : String := "sample-servicefabric-cluster"
  resourceGroupClient : ArmClient
  clustersClient : ArmClient
deriving DecidableEq

/-- The descriptor `createCluster` submits: the literal `armservicefabric.Cluster` in its
body. -/
def clusterParameters (g : Globals) : Cluster :=
  { location := some g.location
    properties := some
      { managementEndpoint := some "https://myCluster.eastus.cloudapp.azure.com:19080"
        nodeTypes :=
          [ { name := some "nt1vm"
              clientConnectionEndpointPort := some 19000
              httpGatewayEndpointPort := some 19007
              applicationPorts := some { startPort := some 20000, endPort := some 30000 }
              ephemeralPorts := some { startPort := some 49000, endPort := some 64000 }
              isPrimary := some true
              vmInstanceCount := some 5
              durabilityLevel := some .bronze } ]
        fabricSettings :=
          [ { name := some "UpgradeService"
              parameters :=
                [ { name := some "AppPollIntervalInSeconds", value := some "60" } ] } ]
        diagnosticsStorageAccountConfig := some
          { storageAccountName := some "diag"
            protectedAccountKeyName := some "StorageAccountKey1"
            blobEndpoint := some "https://diag.blob.core.windows.net/"
            queueEndpoint := some "https://diag.queue.core.windows.net/"
            tableEndpoint := some "https://diag.table.core.windows.net/" }
        reliabilityLevel := some .silver
        upgradeMode := some .automatic } }

/-- The function `createCluster`. -/
def createCluster {σ : Type} (p : Provider σ) (g : Globals) (w : World σ) :
    Except GoError Cluster × World σ :=
  match invoke p
    (.clustersBeginCreateOrUpdate g.clustersClient.subscriptionID
      g.resourceGroupName
      g.clusterName
      (clusterParameters g)) w with
  | (.error err, w) => (.error err, w)
  | (.ok pollerResp, w) =>
    match invoke p (.clustersPollUntilDone pollerResp) w with
    | (.error err, w) => (.error err, w)
    | (.ok resp, w) => (.ok resp, w)

/-- The function `getCluster`. -/
def getCluster {σ : Type} (p : Provider σ) (g : Globals) (w : World σ) :
    Except GoError Cluster × World σ :=
  match invoke p
    (.clustersGet g.clustersClient.subscriptionID g.resourceGroupName g.clusterName) w with
  | (.error err, w) => (.error err, w)
  | (.ok resp, w) => (.ok resp, w)

/-- The function `createResourceGroup`. -/
def createResourceGroup {σ : Type} (p : Provider σ) (g : Globals) (w : World σ) :
    Except GoError ResourceGroup × World σ :=
  match invoke p
    (.resourceGroupsCreateOrUpdate g.resourceGroupClient.subscriptionID
      g.resourceGroupName
      { location := some g.location }) w with
  | (.error err, w) => (.error err, w)
  | (.ok resourceGroupResp, w) => (.ok resourceGroupResp, w)

/-- The function `cleanup`; `none` is the nil error. -/
def cleanup {σ : Type} (p : Provider σ) (g : Globals) (w : World σ) :
    Option GoError × World σ :=
  match invoke p
    (.resourceGroupsBeginDelete g.resourceGroupClient.subscriptionID g.resourceGroupName) w with
  | (.error err, w) => (some err, w)
  | (.ok pollerResp, w) =>
    match invoke p (.resourceGroupsDeletePollUntilDone pollerResp) w with
    | (.error err, w) => (some err, w)
    | (.ok _, w) => (none, w)

/-- The function `main`, run in environment `env` against provider `p` started in state `s`. -/
def main {σ : Type} (env : Env) (p : Provider σ) (s : σ) : Exit × World σ :=
  let w := World.init s
  let subscriptionID := osGetenv env "AZURE_SUBSCRIPTION_ID"
  if goLen subscriptionID == 0 then
    (.fatal "AZURE_SUBSCRIPTION_ID is not set.", w)
  else
  match invoke p .newDefaultAzureCredential w with
  | (.error err, w) => (.fatal err.msg, w)
  | (.ok cred, w) =>
  match invoke p (.newResourcesClientFactory subscriptionID cred) w with
  | (.error err, w) => (.fatal err.msg, w)
  | (.ok _, w) =>
  let resourcesClientFactory : ArmClient := ⟨subscriptionID, cred⟩
  match invoke p (.newServiceFabricClientFactory subscriptionID cred) w with
  | (.error err, w) => (.fatal err.msg, w)
  | (.ok _, w) =>
  let servicefabricClientFactory : ArmClient := ⟨subscriptionID, cred⟩
  let g : Globals :=
    { subscriptionID := subscriptionID
      resourceGroupClient := resourcesClientFactory
      clustersClient := servicefabricClientFactory }
  match createResourceGroup p g w with
  | (.error err, w) => (.fatal err.msg, w)
  | (.ok resourceGroup, w) =>
  match resourceGroup.id with
  | none => (.panic, w)
  | some resourceGroupID =>
  let w := logPrintln ["resources group:", resourceGroupID] w
  match createCluster p g w with
  | (.error err, w) => (.fatal err.msg, w)
  | (.ok cluster, w) =>
  match cluster.id with
  | none => (.panic, w)
  | some clusterID =>
  let w := logPrintln ["service fabric cluster:", clusterID] w
  match getCluster p g w with
  | (.error err, w) => (.fatal err.msg, w)
  | (.ok cluster, w) =>
  match cluster.id with
  | none => (.panic, w)
  | some clusterID =>
  let w := logPrintln ["get service fabric cluster:", clusterID] w
  let keepResource := osGetenv env "KEEP_RESOURCE"
  if goLen keepResource == 0 then
    match cleanup p g w with
    | (some err, w) => (.fatal err.msg, w)
    | (none, w) => (.ok, logPrintln ["cleaned up successfully."] w)
  else
    (.ok, w)

end Clusters

/-! ## Mock providers -/

/-- A plausible successful answer to a call: create-or-update and poll echo a descriptor
carrying the identifier `id` (possibly nil), begin calls hand out a poller for the resource. -/
def Call.sample (id : Option String) : (c : Call) → c.Result
  | .newDefaultAzureCredential => (⟨0⟩ : Credential)
  | .newResourceGroupsClient _ _ => ()
  | .newActivityLogAlertsClient _ _ => ()
  | .newResourcesClientFactory _ _ => ()
  | .newNetworkClientFactory _ _ => ()
  | .newServiceFabricClientFactory _ _ => ()
  | .resourceGroupsCreateOrUpdate _ name parameters =>
      ({ parameters with id := id, name := some name } : ResourceGroup)
  | .resourceGroupsBeginDelete sub name => (⟨[sub, name]⟩ : Poller)
  | .resourceGroupsDeletePollUntilDone _ => ()
  | .activityLogAlertsCreateOrUpdate _ _ name parameters =>
      ({ parameters with id := id, name := some name } : ActivityLogAlertResource)
  | .activityLogAlertsGet _ _ name => ({ id := id, name := some name } : ActivityLogAlertResource)
  | .securityGroupsBeginCreateOrUpdate sub rg name _ => (⟨[sub, rg, name]⟩ : Poller)
  | .securityGroupsPollUntilDone _ => ({ id := id } : SecurityGroup)
  | .securityRulesBeginCreateOrUpdate sub rg group name _ => (⟨[sub, rg, group, name]⟩ : Poller)
  | .securityRulesPollUntilDone _ => ({ id := id } : SecurityRule)
  | .clustersBeginCreateOrUpdate sub rg name _ => (⟨[sub, rg, name]⟩ : Poller)
  | .clustersPollUntilDone _ => ({ id := id } : Cluster)
  | .clustersGet _ _ name => ({ id := id, name := some name } : Cluster)

/-- One entry of a script: what the mock does with the next call. -/
inductive Reply
  /-- Answer with a descriptor that carries an identifier. -/
  | succeed
  /-- Answer with a descriptor whose `ID` is nil. -/
  | succeedWithoutID
  /-- Answer with this error. -/
  | fail (err : GoError)
deriving DecidableEq

/-- A mock that follows a script, one entry per call, and succeeds once the script is used up. -/
def scripted : Provider (List Reply) where
  handle := fun script c =>
    match script with
    | [] => (.ok (c.sample (some "id")), [])
    | .succeed :: rest => (.ok (c.sample (some "id")), rest)
    | .succeedWithoutID :: rest => (.ok (c.sample none), rest)
    | .fail err :: rest => (.error err, rest)

/-- The answers of the mock `rationed`, which hands out a limited number of resource-groups
clients: constructing one uses up one of the clients left and fails when none is left; every
other call succeeds with an answer computed from the call alone and leaves the count as it
is. -/
def rationedHandle (left : Nat) : (c : Call) → Except GoError c.Result × Nat
  | .newResourceGroupsClient _ _ =>
      match left with
      | 0 => (.error ⟨"no client left"⟩, 0)
      | rest + 1 => (.ok (), rest)
  | c => (.ok (c.sample (some "id")), left)

/-- A mock whose state is the number of resource-groups clients it still hands out. -/
def rationed : Provider Nat where
  handle := rationedHandle

/-! ### A mock that stores what is submitted -/

/-- The resources a mock holds, each table keyed by subscription, resource group and the
names that lead to the resource. -/
structure Store where
  groups : List ((String × String) × ResourceGroup) := []
  alerts : List ((String × String × String) × ActivityLogAlertResource) := []
  securityGroups : List ((String × String × String) × SecurityGroup) := []
  securityRules : List ((String × String × String × String) × SecurityRule) := []
  clusters : List ((String × String × String) × Cluster) := []
deriving DecidableEq

/-- Bind `key` to `value`, replacing an earlier binding of the same key. -/
def upsert {κ α : Type} [DecidableEq κ] (key : κ) (value : α) (table : List (κ × α)) :
    List (κ × α) :=
  (key, value) :: table.filter fun entry => decide (entry.1 ≠ key)

/-- The value bound to `key`, if any. -/
def retrieve {κ α : Type} [DecidableEq κ] (key : κ) (table : List (κ × α)) : Option α :=
  (table.find? fun entry => decide (entry.1 = key)).map Prod.snd

/-- The identifier the mock assigns to a resource group. -/
def resourceGroupID (sub rg : String) : String :=
  "/subscriptions/" ++ sub ++ "/resourceGroups/" ++ rg

/-- The identifier the mock assigns to an activity log alert. -/
def activityLogAlertID (sub rg name : String) : String :=
  resourceGroupID sub rg ++ "/providers/Microsoft.Insights/activityLogAlerts/" ++ name

/-- The identifier the mock assigns to a network security group. -/
def securityGroupID (sub rg name : String) : String :=
  resourceGroupID sub rg ++ "/providers/Microsoft.Network/networkSecurityGroups/" ++ name

/-- The identifier the mock assigns to a security rule. -/
def securityRuleID (sub rg group name : String) : String :=
  securityGroupID sub rg group ++ "/securityRules/" ++ name

/-- The identifier the mock assigns to a Service Fabric cluster. -/
def clusterID (sub rg name : String) : String :=
  resourceGroupID sub rg ++ "/providers/Microsoft.ServiceFabric/clusters/" ++ name

/-- Store one rule of a security group under its name; a rule without a name is not stored. -/
def Store.putRule (sub rg group : String) (st : Store) (rule : SecurityRule) : Store :=
  match rule.name with
  | none => st
  | some name =>
    { st with
      securityRules :=
        upsert (sub, rg, group, name)
          { rule with id := some (securityRuleID sub rg group name) } st.securityRules }

/-- Delete a resource group: the group and every resource in it are removed. -/
def Store.deleteGroup (sub rg : String) (st : Store) : Store :=
  { groups := st.groups.filter fun entry => decide (entry.1 ≠ (sub, rg))
    alerts := st.alerts.filter fun entry => decide ((entry.1.1, entry.1.2.1) ≠ (sub, rg))
    securityGroups :=
      st.securityGroups.filter fun entry => decide ((entry.1.1, entry.1.2.1) ≠ (sub, rg))
    securityRules :=
      st.securityRules.filter fun entry => decide ((entry.1.1, entry.1.2.1) ≠ (sub, rg))
    clusters := st.clusters.filter fun entry => decide ((entry.1.1, entry.1.2.1) ≠ (sub, rg)) }

/-- The identifiers of the resource group `rg` of subscription `sub` and of the resources in
it, as far as the store holds them. -/
def Store.resourcesIn (sub rg : String) (st : Store) : List (Option String) :=
  ((st.groups.filter fun entry => decide (entry.1 = (sub, rg))).map fun entry => entry.2.id)
  ++ ((st.alerts.filter fun entry => decide ((entry.1.1, entry.1.2.1) = (sub, rg))).map
        fun entry => entry.2.id)
  ++ ((st.securityGroups.filter fun entry => decide ((entry.1.1, entry.1.2.1) = (sub, rg))).map
        fun entry => entry.2.id)
  ++ ((st.securityRules.filter fun entry => decide ((entry.1.1, entry.1.2.1) = (sub, rg))).map
        fun entry => entry.2.id)
  ++ ((st.clusters.filter fun entry => decide ((entry.1.1, entry.1.2.1) = (sub, rg))).map
        fun entry => entry.2.id)

/-- The error the mock answers when a resource group does not exist. -/
def resourceGroupNotFound : GoError := ⟨"ResourceGroupNotFound"⟩

/-- The error the mock answers when a resource does not exist. -/
def resourceNotFound : GoError := ⟨"ResourceNotFound"⟩

/-- How the storing mock answers a call. -/
def Store.handle (st : Store) : (c : Call) → Except GoError c.Result × Store
  | .newDefaultAzureCredential => (.ok (⟨0⟩ : Credential), st)
  | .newResourceGroupsClient _ _ => (.ok (), st)
  | .newActivityLogAlertsClient _ _ => (.ok (), st)
  | .newResourcesClientFactory _ _ => (.ok (), st)
  | .newNetworkClientFactory _ _ => (.ok (), st)
  | .newServiceFabricClientFactory _ _ => (.ok (), st)
  | .resourceGroupsCreateOrUpdate sub rg parameters =>
      let stored : ResourceGroup :=
        { parameters with id := some (resourceGroupID sub rg), name := some rg }
      (.ok stored, { st with groups := upsert (sub, rg) stored st.groups })
  | .resourceGroupsBeginDelete sub rg =>
      match retrieve (sub, rg) st.groups with
      | none => (.error resourceGroupNotFound, st)
      | some _ => (.ok (⟨[sub, rg]⟩ : Poller), st.deleteGroup sub rg)
  | .resourceGroupsDeletePollUntilDone poller =>
      match poller.target with
      | [sub, rg] =>
        match retrieve (sub, rg) st.groups with
        | none => (.ok (), st)
        | some _ => (.error ⟨"DeleteFailed"⟩, st)
      | _ => (.error resourceNotFound, st)
  | .activityLogAlertsCreateOrUpdate sub rg name parameters =>
      match retrieve (sub, rg) st.groups with
      | none => (.error resourceGroupNotFound, st)
      | some _ =>
        let stored : ActivityLogAlertResource :=
          { parameters with id := some (activityLogAlertID sub rg name), name := some name }
        (.ok stored, { st with alerts := upsert (sub, rg, name) stored st.alerts })
  | .activityLogAlertsGet sub rg name =>
      match retrieve (sub, rg, name) st.alerts with
      | none => (.error resourceNotFound, st)
      | some stored => (.ok stored, st)
  | .securityGroupsBeginCreateOrUpdate sub rg name parameters =>
      match retrieve (sub, rg) st.groups with
      | none => (.error resourceGroupNotFound, st)
      | some _ =>
        let stored : SecurityGroup :=
          { parameters with id := some (securityGroupID sub rg name), name := some name }
        let embedded : List SecurityRule :=
          match parameters.properties with
          | none => []
          | some properties => properties.securityRules
        (.ok (⟨[sub, rg, name]⟩ : Poller),
          embedded.foldl (Store.putRule sub rg name)
            { st with securityGroups := upsert (sub, rg, name) stored st.securityGroups })
  | .securityGroupsPollUntilDone poller =>
      match poller.target with
      | [sub, rg, name] =>
        match retrieve (sub, rg, name) st.securityGroups with
        | none => (.error resourceNotFound, st)
        | some stored => (.ok stored, st)
      | _ => (.error resourceNotFound, st)
  | .securityRulesBeginCreateOrUpdate sub rg group name parameters =>
      match retrieve (sub, rg, group) st.securityGroups with
      | none => (.error resourceNotFound, st)
      | some _ =>
        (.ok (⟨[sub, rg, group, name]⟩ : Poller),
          st.putRule sub rg group { parameters with name := some name })
  | .securityRulesPollUntilDone poller =>
      match poller.target with
      | [sub, rg, group, name] =>
        match retrieve (sub, rg, group, name) st.securityRules with
        | none => (.error resourceNotFound, st)
        | some stored => (.ok stored, st)
      | _ => (.error resourceNotFound, st)
  | .clustersBeginCreateOrUpdate sub rg name parameters =>
      match retrieve (sub, rg) st.groups with
      | none => (.error resourceGroupNotFound, st)
      | some _ =>
        let stored : Cluster :=
          { parameters with id := some (clusterID sub rg name), name := some name }
        (.ok (⟨[sub, rg, name]⟩ : Poller),
          { st with clusters := upsert (sub, rg, name) stored st.clusters })
  | .clustersPollUntilDone poller =>
      match poller.target with
      | [sub, rg, name] =>
        match retrieve (sub, rg, name) st.clusters with
        | none => (.error resourceNotFound, st)
        | some stored => (.ok stored, st)
      | _ => (.error resourceNotFound, st)
  | .clustersGet sub rg name =>
      match retrieve (sub, rg, name) st.clusters with
      | none => (.error resourceNotFound, st)
      | some stored => (.ok stored, st)

/-- Modelled from the spec: the mocked collaborator of the end-to-end scenarios, which is no
part of the sources.  It stores every submitted descriptor under its name, assigns
identifiers of the form `/subscriptions/<sub>/resourceGroups/<group>/...`, answers a get with
what is stored, and deletes a resource group together with its members; the delete operation
reaches the terminal state "succeeded" once the group is gone. -/
def storeProvider : Provider Store where
  handle := Store.handle

/-- An environment given by its bindings. -/
def envOf (bindings : List (String × String)) : Env :=
  fun key => bindings.lookup key

/-! ## Traces -/

/-- The kind of a call: the SDK operation, without its arguments (a security-rule submission
keeps the rule name, which tells the four submissions apart). -/
inductive Op
  | newDefaultAzureCredential
  | newResourceGroupsClient
  | newActivityLogAlertsClient
  | newResourcesClientFactory
  | newNetworkClientFactory
  | newServiceFabricClientFactory
  | resourceGroupsCreateOrUpdate
  | resourceGroupsBeginDelete
  | resourceGroupsDeletePollUntilDone
  | activityLogAlertsCreateOrUpdate
  | activityLogAlertsGet
  | securityGroupsBeginCreateOrUpdate
  | securityGroupsPollUntilDone
  | securityRulesBeginCreateOrUpdate (ruleName : String)
  | securityRulesPollUntilDone
  | clustersBeginCreateOrUpdate
  | clustersPollUntilDone
  | clustersGet
deriving DecidableEq

/-- The operation a call invokes. -/
def Call.op : Call → Op
  | .newDefaultAzureCredential => .newDefaultAzureCredential
  | .newResourceGroupsClient _ _ => .newResourceGroupsClient
  | .newActivityLogAlertsClient _ _ => .newActivityLogAlertsClient
  | .newResourcesClientFactory _ _ => .newResourcesClientFactory
  | .newNetworkClientFactory _ _ => .newNetworkClientFactory
  | .newServiceFabricClientFactory _ _ => .newServiceFabricClientFactory
  | .resourceGroupsCreateOrUpdate _ _ _ => .resourceGroupsCreateOrUpdate
  | .resourceGroupsBeginDelete _ _ => .resourceGroupsBeginDelete
  | .resourceGroupsDeletePollUntilDone _ => .resourceGroupsDeletePollUntilDone
  | .activityLogAlertsCreateOrUpdate _ _ _ _ => .activityLogAlertsCreateOrUpdate
  | .activityLogAlertsGet _ _ _ => .activityLogAlertsGet
  | .securityGroupsBeginCreateOrUpdate _ _ _ _ => .securityGroupsBeginCreateOrUpdate
  | .securityGroupsPollUntilDone _ => .securityGroupsPollUntilDone
  | .securityRulesBeginCreateOrUpdate _ _ _ ruleName _ =>
      .securityRulesBeginCreateOrUpdate ruleName
  | .securityRulesPollUntilDone _ => .securityRulesPollUntilDone
  | .clustersBeginCreateOrUpdate _ _ _ _ => .clustersBeginCreateOrUpdate
  | .clustersPollUntilDone _ => .clustersPollUntilDone
  | .clustersGet _ _ _ => .clustersGet

/-- Remote operations are the management-plane requests and the waits on their pollers;
acquiring the credential and constructing clients are local. -/
def Op.isRemote : Op → Bool
  | .newDefaultAzureCredential => false
  | .newResourceGroupsClient => false
  | .newActivityLogAlertsClient => false
  | .newResourcesClientFactory => false
  | .newNetworkClientFactory => false
  | .newServiceFabricClientFactory => false
  | _ => true

/-- The remote operations of a trace, in the order they were issued. -/
def remoteOps (trace : List Event) : List Op :=
  (trace.map fun ev => ev.call.op).filter Op.isRemote

/-- Fail-fast: only the last recorded call may have returned an error. -/
def failFast (trace : List Event) : Prop :=
  ∀ ev ∈ trace.dropLast, ev.err = none

instance (trace : List Event) : Decidable (failFast trace) := by
  unfold failFast
  infer_instance

/-- The remote operations behind each step of the activity-log-alert program. -/
def ActivityLogAlert.fixedSequence : List (String × List Op) :=
  [ ("createResourceGroup", [.resourceGroupsCreateOrUpdate]),
    ("createActivityLogAlert", [.activityLogAlertsCreateOrUpdate]),
    ("getActivityLogAlert", [.activityLogAlertsGet]),
    ("cleanup", [.resourceGroupsBeginDelete, .resourceGroupsDeletePollUntilDone]) ]

/-- The remote operations behind each step of the security-groups program. -/
def SecurityGroups.fixedSequence : List (String × List Op) :=
  [ ("createResourceGroup", [.resourceGroupsCreateOrUpdate]),
    ("createNetworkSecurityGroup",
      [.securityGroupsBeginCreateOrUpdate, .securityGroupsPollUntilDone]),
    ("createSSHRule",
      [.securityRulesBeginCreateOrUpdate "ALLOW-SSH", .securityRulesPollUntilDone]),
    ("createHTTPRule",
      [.securityRulesBeginCreateOrUpdate "ALLOW-HTTP", .securityRulesPollUntilDone]),
    ("createSQLRule",
      [.securityRulesBeginCreateOrUpdate "ALLOW-SQL", .securityRulesPollUntilDone]),
    ("createDenyOutRule",
      [.securityRulesBeginCreateOrUpdate "DENY-OUT", .securityRulesPollUntilDone]),
    ("cleanup", [.resourceGroupsBeginDelete, .resourceGroupsDeletePollUntilDone]) ]

/-- The remote operations behind each step of the clusters program. -/
def Clusters.fixedSequence : List (String × List Op) :=
  [ ("createResourceGroup", [.resourceGroupsCreateOrUpdate]),
    ("createCluster", [.clustersBeginCreateOrUpdate, .clustersPollUntilDone]),
    ("getCluster", [.clustersGet]),
    ("cleanup", [.resourceGroupsBeginDelete, .resourceGroupsDeletePollUntilDone]) ]

/-- The operations of a step sequence, step after step. -/
def opsOf (steps : List (String × List Op)) : List Op :=
  (steps.map Prod.snd).flatten

/-- The subscription and resource group a call addresses; `none` for calls that address
none (credential, client construction, waiting on a poller). -/
def Call.scope : Call → Option (String × String)
  | .resourceGroupsCreateOrUpdate sub rg _ => some (sub, rg)
  | .resourceGroupsBeginDelete sub rg => some (sub, rg)
  | .activityLogAlertsCreateOrUpdate sub rg _ _ => some (sub, rg)
  | .activityLogAlertsGet sub rg _ => some (sub, rg)
  | .securityGroupsBeginCreateOrUpdate sub rg _ _ => some (sub, rg)
  | .securityRulesBeginCreateOrUpdate sub rg _ _ _ => some (sub, rg)
  | .clustersBeginCreateOrUpdate sub rg _ _ => some (sub, rg)
  | .clustersGet sub rg _ => some (sub, rg)
  | _ => none

/-- Every operation of the activity-log-alert program up to the read-back, local ones
included, in program order. -/
def ActivityLogAlert.bodyOps : List Op :=
  [.newDefaultAzureCredential, .newResourceGroupsClient, .resourceGroupsCreateOrUpdate,
    .newActivityLogAlertsClient, .activityLogAlertsCreateOrUpdate,
    .newActivityLogAlertsClient, .activityLogAlertsGet]

/-- The operations of `cleanup` in the activity-log-alert program. -/
def ActivityLogAlert.cleanupOps : List Op :=
  [.newResourceGroupsClient, .resourceGroupsBeginDelete, .resourceGroupsDeletePollUntilDone]

/-- Every operation of the security-groups program up to the last rule, local ones included,
in program order. -/
def SecurityGroups.bodyOps : List Op :=
  [.newDefaultAzureCredential, .newResourcesClientFactory, .newNetworkClientFactory,
    .resourceGroupsCreateOrUpdate,
    .securityGroupsBeginCreateOrUpdate, .securityGroupsPollUntilDone,
    .securityRulesBeginCreateOrUpdate "ALLOW-SSH", .securityRulesPollUntilDone,
    .securityRulesBeginCreateOrUpdate "ALLOW-HTTP", .securityRulesPollUntilDone,
    .securityRulesBeginCreateOrUpdate "ALLOW-SQL", .securityRulesPollUntilDone,
    .securityRulesBeginCreateOrUpdate "DENY-OUT", .securityRulesPollUntilDone]

/-- The operations of `cleanup` in the security-groups program. -/
def SecurityGroups.cleanupOps : List Op :=
  [.resourceGroupsBeginDelete, .resourceGroupsDeletePollUntilDone]

/-- Every operation of the clusters program up to the read-back, local ones included, in
program order. -/
def Clusters.bodyOps : List Op :=
  [.newDefaultAzureCredential, .newResourcesClientFactory, .newServiceFabricClientFactory,
    .resourceGroupsCreateOrUpdate, .clustersBeginCreateOrUpdate, .clustersPollUntilDone,
    .clustersGet]

/-- The operations of `cleanup` in the clusters program. -/
def Clusters.cleanupOps : List Op :=
  [.resourceGroupsBeginDelete, .resourceGroupsDeletePollUntilDone]

/-- The operations of a trace, local ones included. -/
def allOps (trace : List Event) : List Op :=
  trace.map fun ev => ev.call.op

/-- All creation and read steps succeeded: the successful remote calls of the trace begin
with every operation of the steps before `cleanup`. -/
def stepsSucceeded (steps : List (String × List Op)) (trace : List Event) : Prop :=
  opsOf (steps.filter fun step => step.1 != "cleanup")
    <+: remoteOps (trace.filter fun ev => ev.err.isNone)

/-- Every descriptor the provider returned carries an identifier. -/
def identified (trace : List Event) : Prop :=
  ∀ ev ∈ trace, ev.missingID = false

/-- No call failed. -/
def allSucceeded (trace : List Event) : Prop :=
  ∀ ev ∈ trace, ev.err = none

/-- The trace contains no delete of a resource group (nor a wait on one). -/
def cleanupSkipped (trace : List Event) : Prop :=
  ∀ ev ∈ trace, ev.call.op ≠ .resourceGroupsBeginDelete
    ∧ ev.call.op ≠ .resourceGroupsDeletePollUntilDone

/-- The function `cleanup` was entered exactly once, after the whole body, and nothing came
after it: the operations of the trace are the body followed by a non-empty initial segment
of the operations of one `cleanup`. -/
def cleanupRanOnceLast (body cleanup : List Op) (trace : List Event) : Prop :=
  body ++ cleanup.take 1 <+: allOps trace ∧ allOps trace <+: body ++ cleanup

/-- Every call that addresses a resource group addresses group `rg` of subscription `sub`. -/
def confinedTo (sub rg : String) (trace : List Event) : Prop :=
  ∀ ev ∈ trace, ∀ scope, ev.call.scope = some scope → scope = (sub, rg)

instance (trace : List Event) : Decidable (identified trace) := by
  unfold identified
  infer_instance

instance (trace : List Event) : Decidable (allSucceeded trace) := by
  unfold allSucceeded
  infer_instance

instance (trace : List Event) : Decidable (cleanupSkipped trace) := by
  unfold cleanupSkipped
  infer_instance

instance (steps : List (String × List Op)) (trace : List Event) :
    Decidable (stepsSucceeded steps trace) := by
  unfold stepsSucceeded
  infer_instance

instance (body cleanup : List Op) (trace : List Event) :
    Decidable (cleanupRanOnceLast body cleanup trace) := by
  unfold cleanupRanOnceLast
  infer_instance

/-- The remote calls of a trace with their answers, in the order they were issued. -/
def remoteEvents (trace : List Event) : List Event :=
  trace.filter fun ev => ev.call.op.isRemote

/-- The names under which security rules were submitted one by one, in order. -/
def submittedRuleNames (trace : List Event) : List String :=
  trace.filterMap fun ev =>
    match ev.call with
    | .securityRulesBeginCreateOrUpdate _ _ _ ruleName _ => some ruleName
    | _ => none

/-- The rules embedded in the security-group descriptors a trace submits, each reduced to
its name, destination port, access, direction and priority. -/
def embeddedRules (trace : List Event) :
    List (Option String × Option String × Option SecurityRuleAccess
      × Option SecurityRuleDirection × Option Int) :=
  (trace.filterMap fun ev =>
    match ev.call with
    | .securityGroupsBeginCreateOrUpdate _ _ _ parameters =>
      some
        (match parameters.properties with
          | none => []
          | some properties => properties.securityRules)
    | _ => none).flatten.map fun rule =>
      (rule.name, rule.properties.bind (·.destinationPortRange),
        rule.properties.bind (·.access), rule.properties.bind (·.direction),
        rule.properties.bind (·.priority))

/-- Get a security rule by name from the store: its name, priority and direction. -/
def Store.ruleByName (st : Store) (sub rg group name : String) :
    Option (Option String × Option Int × Option SecurityRuleDirection) :=
  (retrieve (sub, rg, group, name) st.securityRules).map fun rule =>
    (rule.name, rule.properties.bind (·.priority), rule.properties.bind (·.direction))

/-- The state a provider started in state `s` reaches by answering the calls of a trace in
order. -/
def stateAfter {σ : Type} (p : Provider σ) (s : σ) (trace : List Event) : σ :=
  trace.foldl (fun st ev => (p.handle st ev.call).2) s

/-- The part of a trace before the delete of the resource group is begun. -/
def beforeCleanup (trace : List Event) : List Event :=
  trace.takeWhile fun ev => ev.call.op != .resourceGroupsBeginDelete

/-! ### Contracts of single functions -/

/-- The error of a result, `none` when it is a success. -/
def failure {α : Type} : Except GoError α → Option GoError
  | .ok _ => none
  | .error err => some err

/-- A nil error is a success without a value. -/
def asResult : Option GoError → Except GoError Unit
  | none => .ok ()
  | some err => .error err

/-- The contract of a function that submits a long-running operation and waits for its
terminal state.  `submit` is the provider's answer to the `Begin*` call, `wait h s` its answer
to `PollUntilDone` on poller `h` in state `s`, `result` what the function returns: a
descriptor exactly when both calls succeed, and then the one the terminal poll result
carries; otherwise the error of the failing call, passed through `onSubmit` or `onWait`. -/
def longRunningContract {σ α : Type} (submit : Except GoError Poller × σ)
    (wait : Poller → σ → Except GoError α × σ) (onSubmit onWait : GoError → GoError)
    (result : Except GoError α) : Prop :=
  (∀ d, result = .ok d ↔ ∃ h s, submit = (.ok h, s) ∧ (wait h s).1 = .ok d)
  ∧ (∀ err s, submit = (.error err, s) → result = .error (onSubmit err))
  ∧ (∀ h s err, submit = (.ok h, s) → (wait h s).1 = .error err →
      result = .error (onWait err))

/-- The provider's answer to the calls with an operation in `ops` is a function of the call:
it does not depend on the provider's state. -/
def answersByRequest {σ : Type} (p : Provider σ) (ops : List Op) : Prop :=
  ∀ (st st' : σ) (c : Call), c.op ∈ ops → (p.handle st c).1 = (p.handle st' c).1

/-- The package-level variables of the security-groups program as `main` leaves them for
subscription `sub` and credential `cred`. -/
def SecurityGroups.globalsOf (sub : String) (cred : Credential) : SecurityGroups.Globals :=
  { subscriptionID := sub
    resourceGroupClient := ⟨sub, cred⟩
    securityGroupsClient := ⟨sub, cred⟩
    securityRulesClient := ⟨sub, cred⟩ }

/-- The package-level variables of the clusters program as `main` leaves them for
subscription `sub` and credential `cred`. -/
def Clusters.globalsOf (sub : String) (cred : Credential) : Clusters.Globals :=
  { subscriptionID := sub
    resourceGroupClient := ⟨sub, cred⟩
    clustersClient := ⟨sub, cred⟩ }

/-- What the claims look at in a recorded call: its operation, whether it failed, whether it
returned a descriptor without identifier, and whether it stays inside resource group `rg` of
subscription `sub`. -/
structure View where
  op : Op
  failed : Bool
  missingID : Bool
  inScope : Bool
deriving DecidableEq

/-- The view of a recorded call. -/
def Event.view (sub rg : String) (ev : Event) : View :=
  { op := ev.call.op
    failed := ev.err.isSome
    missingID := ev.missingID
    inScope :=
      match ev.call.scope with
      | none => true
      | some scope => decide (scope = (sub, rg)) }

/-- The facts one symbolic execution of a program establishes about a run, stated on the
views of its trace so that they can be decided: `fixed` are the remote operations of the
program, `created` those before `cleanup`, `body` and `cleanup` all operations before and in
`cleanup`, `code` the exit status, `noSubscription` and `keepUnset` the outcome of the two
tests on the environment. -/
def RunFacts (fixed created body cleanup : List Op) (code : Nat)
    (noSubscription keepUnset : Bool) (vs : List View) : Prop :=
  ((vs.map View.op).filter Op.isRemote <+: fixed ∧ ∀ v ∈ vs.dropLast, v.failed = false)
  ∧ ((created <+: ((vs.filter fun v => !v.failed).map View.op).filter Op.isRemote →
        (∀ v ∈ vs, v.missingID = false) → keepUnset = true →
        body ++ cleanup.take 1 <+: vs.map View.op ∧ vs.map View.op <+: body ++ cleanup)
    ∧ (keepUnset = false →
        ∀ v ∈ vs, v.op ≠ .resourceGroupsBeginDelete
          ∧ v.op ≠ .resourceGroupsDeletePollUntilDone))
  ∧ (∀ v ∈ vs, v.inScope = true)
  ∧ (code = 0 →
      noSubscription = false ∧ (∀ v ∈ vs, v.failed = false) ∧ ∀ v ∈ vs, v.missingID = false)
  ∧ (noSubscription = false → (∀ v ∈ vs, v.failed = false) →
      (∀ v ∈ vs, v.missingID = false) → code = 0)
  ∧ (noSubscription = true → vs = [])

set_option synthInstance.maxSize 1024 in
instance (fixed created body cleanup : List Op) (code : Nat) (noSubscription keepUnset : Bool)
    (vs : List View) :
    Decidable (RunFacts fixed created body cleanup code noSubscription keepUnset vs) := by
  unfold RunFacts
  infer_instance

/-- The facts of `RunFacts` for the result of a program run in environment `env` against
provider `p`; and when the run ends well after `cleanup`, its final
state is the provider's state after a successful delete of resource group `rg` and a
successful wait for it. -/
def Summary (steps : List (String × List Op)) (body cleanup : List Op) (rg : String)
    {σ : Type} (env : Env) (p : Provider σ) (result : Exit × World σ) : Prop :=
  RunFacts (opsOf steps) (opsOf (steps.filter fun step => step.1 != "cleanup")) body cleanup
    result.1.code
    (goLen (osGetenv env "AZURE_SUBSCRIPTION_ID") == 0)
    (goLen (osGetenv env "KEEP_RESOURCE") == 0)
    (result.2.trace.map (Event.view (osGetenv env "AZURE_SUBSCRIPTION_ID") rg))
  ∧ (result.1 = Exit.ok → (goLen (osGetenv env "KEEP_RESOURCE") == 0) = true →
      ∃ st h st' u,
        p.handle st (.resourceGroupsBeginDelete (osGetenv env "AZURE_SUBSCRIPTION_ID") rg)
            = (.ok h, st')
          ∧ p.handle st' (.resourceGroupsDeletePollUntilDone h) = (.ok u, result.2.state))

/-! ### Security rules of a run -/

/-- What the claims look at in a security rule submitted for a security group: the name it is
submitted under, its direction, its priority, and whether it is submitted for the security
group the run is asked about. -/
structure RuleView where
  name : Option String
  direction : Option SecurityRuleDirection
  priority : Option Int
  inGroup : Bool
deriving DecidableEq

/-- The view of a security rule submitted under `name`. -/
def SecurityRule.view (name : Option String) (inGroup : Bool) (rule : SecurityRule) :
    RuleView :=
  { name := name
    direction := rule.properties.bind (·.direction)
    priority := rule.properties.bind (·.priority)
    inGroup := inGroup }

/-- The security rules a call submits: the rules embedded in the descriptor of a
security-group create-or-update, each under the name the descriptor gives it, and the rule of
a security-rule create-or-update, under the name given in the call. `target` is the
subscription, resource group and security group the run is asked about. -/
def Call.submittedRules (target : String × String × String) : Call → List RuleView
  | .securityGroupsBeginCreateOrUpdate sub rg group parameters =>
    match parameters.properties with
    | none => []
    | some properties =>
      properties.securityRules.map fun rule =>
        rule.view rule.name (decide ((sub, rg, group) = target))
  | .securityRulesBeginCreateOrUpdate sub rg group ruleName parameters =>
    [parameters.view (some ruleName) (decide ((sub, rg, group) = target))]
  | _ => []

/-- The security rules submitted in a trace, in the order of submission. -/
def submittedRules (target : String × String × String) (trace : List Event) : List RuleView :=
  (trace.map fun ev => ev.call.submittedRules target).flatten

/-- A priority is present and lies in 100..4096. -/
def acceptedPriority : Option Int → Prop
  | none => False
  | some value => 100 ≤ value ∧ value ≤ 4096

instance (given : Option Int) : Decidable (acceptedPriority given) := by
  cases given <;> unfold acceptedPriority <;> infer_instance

/-- The facts the symbolic execution of the securitygroups program establishes about the
security rules of a run, stated on their views so that they can be decided: `code` is the exit
status. -/
def RuleFacts (code : Nat) (rules : List RuleView) : Prop :=
  (∀ rule ∈ rules, rule.inGroup = true)
  ∧ rules.Pairwise (fun a b => a.direction = b.direction → a.priority ≠ b.priority)
  ∧ (rules.map RuleView.name).Nodup
  ∧ (∀ rule ∈ rules, acceptedPriority rule.priority)
  ∧ rules.Pairwise (fun a b => a.priority = b.priority →
      a.priority = some 100 ∧ a.direction = some .inbound ∧ b.direction = some .outbound)
  ∧ (code = 0 →
      rules
        = [ ⟨some "allow_ssh", some .inbound, some 100, true⟩,
            ⟨some "allow_https", some .inbound, some 200, true⟩,
            ⟨some "ALLOW-SSH", some .inbound, some 103, true⟩,
            ⟨some "ALLOW-HTTP", some .inbound, some 101, true⟩,
            ⟨some "ALLOW-SQL", some .inbound, some 102, true⟩,
            ⟨some "DENY-OUT", some .outbound, some 100, true⟩ ])

instance (code : Nat) (rules : List RuleView) : Decidable (RuleFacts code rules) := by
  unfold RuleFacts
  infer_instance

/-! ## Basic facts -/

theorem goLen_eq_zero_iff (s : String) : goLen s = 0 ↔ s = "" := by
  rcases s with ⟨cs⟩
  cases cs with
  | nil => simp [goLen, String.utf8ByteSize, String.utf8ByteSize.go]
  | cons c cs =>
    have hpos := Char.utf8Size_pos c
    simp only [goLen, String.utf8ByteSize, String.utf8ByteSize.go]
    constructor
    · intro h0
      omega
    · intro h0
      exact absurd (congrArg String.data h0) (by simp)

theorem osGetenv_eq_empty_iff (env : Env) (key : String) :
    osGetenv env key = "" ↔ env key = none ∨ env key = some "" := by
  unfold osGetenv
  cases h : env key <;> simp

/-! ## From views back to traces -/

theorem remoteOps_eq_view (sub rg : String) (trace : List Event) :
    remoteOps trace = ((trace.map (Event.view sub rg)).map View.op).filter Op.isRemote := by
  simp only [remoteOps, List.map_map]
  rfl

theorem allOps_eq_view (sub rg : String) (trace : List Event) :
    allOps trace = (trace.map (Event.view sub rg)).map View.op := by
  simp only [allOps, List.map_map]
  rfl

theorem failFast_iff_view (sub rg : String) (trace : List Event) :
    failFast trace ↔ ∀ v ∈ (trace.map (Event.view sub rg)).dropLast, v.failed = false := by
  rw [← List.map_dropLast]
  simp only [failFast, List.forall_mem_map, Event.view]
  constructor
  · intro h ev hev
    rw [h ev hev]
    rfl
  · intro h ev hev
    have := h ev hev
    cases herr : ev.err with
    | none => rfl
    | some e => rw [herr] at this; exact Bool.noConfusion this

theorem allSucceeded_iff_view (sub rg : String) (trace : List Event) :
    allSucceeded trace ↔ ∀ v ∈ trace.map (Event.view sub rg), v.failed = false := by
  simp only [allSucceeded, List.forall_mem_map, Event.view]
  constructor
  · intro h ev hev
    rw [h ev hev]
    rfl
  · intro h ev hev
    have := h ev hev
    cases herr : ev.err with
    | none => rfl
    | some e => rw [herr] at this; exact Bool.noConfusion this

theorem identified_iff_view (sub rg : String) (trace : List Event) :
    identified trace ↔ ∀ v ∈ trace.map (Event.view sub rg), v.missingID = false := by
  simp only [identified, List.forall_mem_map, Event.view]

theorem cleanupSkipped_iff_view (sub rg : String) (trace : List Event) :
    cleanupSkipped trace ↔
      ∀ v ∈ trace.map (Event.view sub rg),
        v.op ≠ .resourceGroupsBeginDelete ∧ v.op ≠ .resourceGroupsDeletePollUntilDone := by
  simp only [cleanupSkipped, List.forall_mem_map, Event.view]

theorem confinedTo_iff_view (sub rg : String) (trace : List Event) :
    confinedTo sub rg trace ↔ ∀ v ∈ trace.map (Event.view sub rg), v.inScope = true := by
  simp only [confinedTo, List.forall_mem_map, Event.view]
  constructor
  · intro h ev hev
    cases hs : ev.call.scope with
    | none => rfl
    | some scope => simpa using h ev hev scope hs
  · intro h ev hev scope hs
    have := h ev hev
    rw [hs] at this
    simpa using this

theorem stepsSucceeded_iff_view (sub rg : String) (steps : List (String × List Op))
    (trace : List Event) :
    stepsSucceeded steps trace ↔
      opsOf (steps.filter fun step => step.1 != "cleanup")
        <+: (((trace.map (Event.view sub rg)).filter fun v => !v.failed).map View.op).filter
              Op.isRemote := by
  have hfilter : ((trace.map (Event.view sub rg)).filter fun v => !v.failed)
      = (trace.filter fun ev => ev.err.isNone).map (Event.view sub rg) := by
    rw [List.filter_map]
    congr 1
    apply List.filter_congr
    intro ev _
    show (!(Event.view sub rg ev).failed) = ev.err.isNone
    show (!ev.err.isSome) = ev.err.isNone
    cases ev.err <;> rfl
  rw [hfilter, ← remoteOps_eq_view]
  rfl

theorem keepUnset_iff (env : Env) :
    (goLen (osGetenv env "KEEP_RESOURCE") == 0) = true ↔ osGetenv env "KEEP_RESOURCE" = "" := by
  rw [beq_iff_eq, goLen_eq_zero_iff]

theorem noSubscription_iff (env : Env) :
    (goLen (osGetenv env "AZURE_SUBSCRIPTION_ID") == 0) = false
      ↔ osGetenv env "AZURE_SUBSCRIPTION_ID" ≠ "" := by
  rw [beq_eq_false_iff_ne, Ne, goLen_eq_zero_iff]

/-! ## One symbolic execution per program -/

attribute [simp] Event.view Call.op Call.wrap Call.scope Event.err Event.missingID
  Value.descriptorID Exit.code Summary

set_option maxHeartbeats 4000000 in
theorem activityLogAlert_main_summary {σ : Type} (env : Env) (p : Provider σ) (s : σ) :
    Summary ActivityLogAlert.fixedSequence ActivityLogAlert.bodyOps ActivityLogAlert.cleanupOps
      "sample-resource-group" env p (ActivityLogAlert.main env p s) := by
  simp only [ActivityLogAlert.main, ActivityLogAlert.createResourceGroup,
    ActivityLogAlert.createActivityLogAlert, ActivityLogAlert.getActivityLogAlert,
    ActivityLogAlert.cleanup, World.init, logPrintln, invoke]
  split
  · simp [*]
    generalize (goLen (osGetenv env "KEEP_RESOURCE") == 0) = keepUnset
    cases keepUnset <;> decide
  · rcases h0 : p.handle s Call.newDefaultAzureCredential with ⟨_ | _, _⟩ <;> simp only []
    all_goals repeat' first
      | (generalize hk : p.handle _ _ = x
         fail_if_success (have : p.handle s Call.newDefaultAzureCredential = x := hk)
         rcases x with ⟨e | r, s'⟩ <;> simp only [] <;>
           try (rcases hid : r.id with _ | id <;> simp only [hid]))
      | split
    all_goals
      simp [*]
      first
        | decide
        | (generalize (goLen (osGetenv env "KEEP_RESOURCE") == 0) = keepUnset
           cases keepUnset <;> decide)
        | exact ⟨by decide, _, _, _, by assumption, _, by assumption⟩

set_option maxHeartbeats 4000000 in
theorem securityGroups_main_summary {σ : Type} (env : Env) (p : Provider σ) (s : σ) :
    Summary SecurityGroups.fixedSequence SecurityGroups.bodyOps SecurityGroups.cleanupOps
      "sample-resources-group" env p (SecurityGroups.main env p s) := by
  simp only [SecurityGroups.main, SecurityGroups.createResourceGroup,
    SecurityGroups.createNetworkSecurityGroup, SecurityGroups.createSSHRule,
    SecurityGroups.createHTTPRule, SecurityGroups.createSQLRule,
    SecurityGroups.createDenyOutRule, SecurityGroups.cleanup, World.init, logPrintln, invoke]
  split
  · simp [*]
    generalize (goLen (osGetenv env "KEEP_RESOURCE") == 0) = keepUnset
    cases keepUnset <;> decide
  · rcases h0 : p.handle s Call.newDefaultAzureCredential with ⟨_ | _, _⟩ <;> simp only []
    all_goals repeat' first
      | (generalize hk : p.handle _ _ = x
         fail_if_success (have : p.handle s Call.newDefaultAzureCredential = x := hk)
         rcases x with ⟨e | r, s'⟩ <;> simp only [] <;>
           try (rcases hid : r.id with _ | id <;> simp only [hid]))
      | split
    all_goals
      simp [*]
      first
        | decide
        | (generalize (goLen (osGetenv env "KEEP_RESOURCE") == 0) = keepUnset
           cases keepUnset <;> decide)
        | exact ⟨by decide, _, _, _, by assumption, _, by assumption⟩

set_option maxHeartbeats 4000000 in
theorem clusters_main_summary {σ : Type} (env : Env) (p : Provider σ) (s : σ) :
    Summary Clusters.fixedSequence Clusters.bodyOps Clusters.cleanupOps
      "sample-resource-group" env p (Clusters.main env p s) := by
  simp only [Clusters.main, Clusters.createResourceGroup, Clusters.createCluster,
    Clusters.getCluster, Clusters.cleanup, World.init, logPrintln, invoke]
  split
  · simp [*]
    generalize (goLen (osGetenv env "KEEP_RESOURCE") == 0) = keepUnset
    cases keepUnset <;> decide
  · rcases h0 : p.handle s Call.newDefaultAzureCredential with ⟨_ | _, _⟩ <;> simp only []
    all_goals repeat' first
      | (generalize hk : p.handle _ _ = x
         fail_if_success (have : p.handle s Call.newDefaultAzureCredential = x := hk)
         rcases x with ⟨e | r, s'⟩ <;> simp only [] <;>
           try (rcases hid : r.id with _ | id <;> simp only [hid]))
      | split
    all_goals
      simp [*]
      first
        | decide
        | (generalize (goLen (osGetenv env "KEEP_RESOURCE") == 0) = keepUnset
           cases keepUnset <;> decide)
        | exact ⟨by decide, _, _, _, by assumption, _, by assumption⟩

/-! ## Claims -/

/-- C1. In each of the three programs, when `AZURE_SUBSCRIPTION_ID` is absent or empty,
`main` ends in `log.Fatal("AZURE_SUBSCRIPTION_ID is not set.")` (exit status 1), the recorded
trace is empty (no credential acquisition, client construction or remote call) and the
provider is left in its initial state. -/
theorem C1_missing_subscription_aborts_before_any_call {σ : Type} (env : Env)
    (p : Provider σ) (s : σ)
    (h : env "AZURE_SUBSCRIPTION_ID" = none ∨ env "AZURE_SUBSCRIPTION_ID" = some "") :
    ((ActivityLogAlert.main env p s).1 = Exit.fatal "AZURE_SUBSCRIPTION_ID is not set."
      ∧ (ActivityLogAlert.main env p s).2.trace = []
      ∧ (ActivityLogAlert.main env p s).2.state = s)
    ∧ ((SecurityGroups.main env p s).1 = Exit.fatal "AZURE_SUBSCRIPTION_ID is not set."
      ∧ (SecurityGroups.main env p s).2.trace = []
      ∧ (SecurityGroups.main env p s).2.state = s)
    ∧ ((Clusters.main env p s).1 = Exit.fatal "AZURE_SUBSCRIPTION_ID is not set."
      ∧ (Clusters.main env p s).2.trace = []
      ∧ (Clusters.main env p s).2.state = s) := by
  have h0 : osGetenv env "AZURE_SUBSCRIPTION_ID" = "" := (osGetenv_eq_empty_iff _ _).2 h
  have hl : goLen "" = 0 := (goLen_eq_zero_iff "").2 rfl
  refine ⟨?_, ?_, ?_⟩
  · simp [ActivityLogAlert.main, h0, hl, World.init]
  · simp [SecurityGroups.main, h0, hl, World.init]
  · simp [Clusters.main, h0, hl, World.init]

/-- C1 at a concrete input: the empty environment and the scripted mock. -/
theorem C1_missing_subscription_witness :
    (envOf [] "AZURE_SUBSCRIPTION_ID" = none ∨ envOf [] "AZURE_SUBSCRIPTION_ID" = some "")
    ∧ (ActivityLogAlert.main (envOf []) scripted []).1
        = Exit.fatal "AZURE_SUBSCRIPTION_ID is not set."
    ∧ (SecurityGroups.main (envOf []) scripted []).2.trace = []
    ∧ (Clusters.main (envOf []) scripted []).2.state = [] :=
  have h := C1_missing_subscription_aborts_before_any_call (envOf []) scripted []
    (Or.inl rfl)
  ⟨Or.inl rfl, h.1.1, h.2.1.2.1, h.2.2.2.2⟩

/-- C2. For every environment and every provider, the remote operations each program issues
form an initial segment of its fixed sequence (create group, create resources, read back,
delete group and wait for the delete), and only the last recorded call can have returned an
error: once a call fails, nothing more is issued. -/
theorem C2_trace_is_fail_fast_initial_segment {σ : Type} (env : Env) (p : Provider σ)
    (s : σ) :
    (remoteOps (ActivityLogAlert.main env p s).2.trace
        <+: opsOf ActivityLogAlert.fixedSequence
      ∧ failFast (ActivityLogAlert.main env p s).2.trace)
    ∧ (remoteOps (SecurityGroups.main env p s).2.trace
        <+: opsOf SecurityGroups.fixedSequence
      ∧ failFast (SecurityGroups.main env p s).2.trace)
    ∧ (remoteOps (Clusters.main env p s).2.trace
        <+: opsOf Clusters.fixedSequence
      ∧ failFast (Clusters.main env p s).2.trace) := by
  have ha := (activityLogAlert_main_summary env p s).1.1
  have hs := (securityGroups_main_summary env p s).1.1
  have hc := (clusters_main_summary env p s).1.1
  refine ⟨⟨?_, ?_⟩, ⟨?_, ?_⟩, ⟨?_, ?_⟩⟩
  · rw [remoteOps_eq_view (osGetenv env "AZURE_SUBSCRIPTION_ID") "sample-resource-group"]
    exact ha.1
  · exact (failFast_iff_view _ _ _).2 ha.2
  · rw [remoteOps_eq_view (osGetenv env "AZURE_SUBSCRIPTION_ID") "sample-resources-group"]
    exact hs.1
  · exact (failFast_iff_view _ _ _).2 hs.2
  · rw [remoteOps_eq_view (osGetenv env "AZURE_SUBSCRIPTION_ID") "sample-resource-group"]
    exact hc.1
  · exact (failFast_iff_view _ _ _).2 hc.2

/-- C3 as stated fails. In the activity-log-alert program run with `KEEP_RESOURCE` unset
against a provider whose every call succeeds, but whose get returns an alert without `ID`,
all creation and read steps succeed, yet `cleanup` is never invoked: the run panics on
`*activityLogAlert.ID` right after the read-back. -/
theorem C3_counterexample_nil_id_skips_cleanup :
    stepsSucceeded ActivityLogAlert.fixedSequence
        (ActivityLogAlert.main (envOf [("AZURE_SUBSCRIPTION_ID", "sub-1")]) scripted
          [.succeed, .succeed, .succeed, .succeed, .succeed, .succeed,
            .succeedWithoutID]).2.trace
    ∧ osGetenv (envOf [("AZURE_SUBSCRIPTION_ID", "sub-1")]) "KEEP_RESOURCE" = ""
    ∧ cleanupSkipped
        (ActivityLogAlert.main (envOf [("AZURE_SUBSCRIPTION_ID", "sub-1")]) scripted
          [.succeed, .succeed, .succeed, .succeed, .succeed, .succeed,
            .succeedWithoutID]).2.trace
    ∧ ¬ cleanupRanOnceLast ActivityLogAlert.bodyOps ActivityLogAlert.cleanupOps
        (ActivityLogAlert.main (envOf [("AZURE_SUBSCRIPTION_ID", "sub-1")]) scripted
          [.succeed, .succeed, .succeed, .succeed, .succeed, .succeed,
            .succeedWithoutID]).2.trace
    ∧ (ActivityLogAlert.main (envOf [("AZURE_SUBSCRIPTION_ID", "sub-1")]) scripted
          [.succeed, .succeed, .succeed, .succeed, .succeed, .succeed,
            .succeedWithoutID]).1 = Exit.panic := by
  decide

/-- C3, amended. For every run of each program in which all creation and read steps
succeed: if `KEEP_RESOURCE` is set to a non-empty value, the trace contains no delete of the
resource group; if `KEEP_RESOURCE` is unset (or empty) and every returned descriptor carries
an identifier, `cleanup` is entered exactly once, after every creation and read step, and
nothing follows it. -/
theorem C3_cleanup_runs_once_last_unless_kept {σ : Type} (env : Env) (p : Provider σ) (s : σ) :
    (stepsSucceeded ActivityLogAlert.fixedSequence (ActivityLogAlert.main env p s).2.trace →
      (osGetenv env "KEEP_RESOURCE" ≠ "" →
        cleanupSkipped (ActivityLogAlert.main env p s).2.trace)
      ∧ (osGetenv env "KEEP_RESOURCE" = "" →
        identified (ActivityLogAlert.main env p s).2.trace →
        cleanupRanOnceLast ActivityLogAlert.bodyOps ActivityLogAlert.cleanupOps
          (ActivityLogAlert.main env p s).2.trace))
    ∧ (stepsSucceeded SecurityGroups.fixedSequence (SecurityGroups.main env p s).2.trace →
      (osGetenv env "KEEP_RESOURCE" ≠ "" →
        cleanupSkipped (SecurityGroups.main env p s).2.trace)
      ∧ (osGetenv env "KEEP_RESOURCE" = "" →
        identified (SecurityGroups.main env p s).2.trace →
        cleanupRanOnceLast SecurityGroups.bodyOps SecurityGroups.cleanupOps
          (SecurityGroups.main env p s).2.trace))
    ∧ (stepsSucceeded Clusters.fixedSequence (Clusters.main env p s).2.trace →
      (osGetenv env "KEEP_RESOURCE" ≠ "" →
        cleanupSkipped (Clusters.main env p s).2.trace)
      ∧ (osGetenv env "KEEP_RESOURCE" = "" →
        identified (Clusters.main env p s).2.trace →
        cleanupRanOnceLast Clusters.bodyOps Clusters.cleanupOps
          (Clusters.main env p s).2.trace)) := by
  have ha := (activityLogAlert_main_summary env p s).1.2.1
  have hs := (securityGroups_main_summary env p s).1.2.1
  have hc := (clusters_main_summary env p s).1.2.1
  have hset : osGetenv env "KEEP_RESOURCE" ≠ "" →
      (goLen (osGetenv env "KEEP_RESOURCE") == 0) = false := by
    intro hkeep
    cases hb : (goLen (osGetenv env "KEEP_RESOURCE") == 0)
    · rfl
    · exact absurd ((keepUnset_iff env).1 hb) hkeep
  refine ⟨?_, ?_, ?_⟩
  · intro hsteps
    constructor
    · intro hkeep
      exact (cleanupSkipped_iff_view _ _ _).2 (ha.2 (hset hkeep))
    · intro hkeep hids
      have h := ha.1 ((stepsSucceeded_iff_view _ _ _ _).1 hsteps)
        ((identified_iff_view _ _ _).1 hids) ((keepUnset_iff env).2 hkeep)
      unfold cleanupRanOnceLast
      rw [allOps_eq_view (osGetenv env "AZURE_SUBSCRIPTION_ID") "sample-resource-group"]
      exact h
  · intro hsteps
    constructor
    · intro hkeep
      exact (cleanupSkipped_iff_view _ _ _).2 (hs.2 (hset hkeep))
    · intro hkeep hids
      have h := hs.1 ((stepsSucceeded_iff_view _ _ _ _).1 hsteps)
        ((identified_iff_view _ _ _).1 hids) ((keepUnset_iff env).2 hkeep)
      unfold cleanupRanOnceLast
      rw [allOps_eq_view (osGetenv env "AZURE_SUBSCRIPTION_ID") "sample-resources-group"]
      exact h
  · intro hsteps
    constructor
    · intro hkeep
      exact (cleanupSkipped_iff_view _ _ _).2 (hc.2 (hset hkeep))
    · intro hkeep hids
      have h := hc.1 ((stepsSucceeded_iff_view _ _ _ _).1 hsteps)
        ((identified_iff_view _ _ _).1 hids) ((keepUnset_iff env).2 hkeep)
      unfold cleanupRanOnceLast
      rw [allOps_eq_view (osGetenv env "AZURE_SUBSCRIPTION_ID") "sample-resource-group"]
      exact h

/-- C3 at concrete inputs: the storing mock with `KEEP_RESOURCE` unset (activity log alert,
clusters), where every descriptor carries an identifier and `cleanup` runs once and last, and
with `KEEP_RESOURCE` set (security groups), where nothing is deleted. -/
theorem C3_cleanup_witness :
    (stepsSucceeded ActivityLogAlert.fixedSequence
        (ActivityLogAlert.main (envOf [("AZURE_SUBSCRIPTION_ID", "sub-1")]) storeProvider
          {}).2.trace
      ∧ osGetenv (envOf [("AZURE_SUBSCRIPTION_ID", "sub-1")]) "KEEP_RESOURCE" = ""
      ∧ identified
        (ActivityLogAlert.main (envOf [("AZURE_SUBSCRIPTION_ID", "sub-1")]) storeProvider
          {}).2.trace
      ∧ cleanupRanOnceLast ActivityLogAlert.bodyOps ActivityLogAlert.cleanupOps
        (ActivityLogAlert.main (envOf [("AZURE_SUBSCRIPTION_ID", "sub-1")]) storeProvider
          {}).2.trace)
    ∧ (stepsSucceeded SecurityGroups.fixedSequence
        (SecurityGroups.main
          (envOf [("AZURE_SUBSCRIPTION_ID", "sub-1"), ("KEEP_RESOURCE", "1")]) storeProvider
          {}).2.trace
      ∧ osGetenv (envOf [("AZURE_SUBSCRIPTION_ID", "sub-1"), ("KEEP_RESOURCE", "1")])
          "KEEP_RESOURCE" ≠ ""
      ∧ cleanupSkipped
        (SecurityGroups.main
          (envOf [("AZURE_SUBSCRIPTION_ID", "sub-1"), ("KEEP_RESOURCE", "1")]) storeProvider
          {}).2.trace)
    ∧ (stepsSucceeded Clusters.fixedSequence
        (Clusters.main (envOf [("AZURE_SUBSCRIPTION_ID", "sub-1")]) storeProvider {}).2.trace
      ∧ osGetenv (envOf [("AZURE_SUBSCRIPTION_ID", "sub-1")]) "KEEP_RESOURCE" = ""
      ∧ identified
        (Clusters.main (envOf [("AZURE_SUBSCRIPTION_ID", "sub-1")]) storeProvider {}).2.trace
      ∧ cleanupRanOnceLast Clusters.bodyOps Clusters.cleanupOps
        (Clusters.main (envOf [("AZURE_SUBSCRIPTION_ID", "sub-1")]) storeProvider
          {}).2.trace) :=
  ⟨⟨by decide, by decide, by decide,
      ((C3_cleanup_runs_once_last_unless_kept (envOf [("AZURE_SUBSCRIPTION_ID", "sub-1")])
        storeProvider {}).1 (by decide)).2 (by decide) (by decide)⟩,
    ⟨by decide, by decide,
      ((C3_cleanup_runs_once_last_unless_kept
        (envOf [("AZURE_SUBSCRIPTION_ID", "sub-1"), ("KEEP_RESOURCE", "1")])
        storeProvider {}).2.1 (by decide)).1 (by decide)⟩,
    ⟨by decide, by decide, by decide,
      ((C3_cleanup_runs_once_last_unless_kept (envOf [("AZURE_SUBSCRIPTION_ID", "sub-1")])
        storeProvider {}).2.2 (by decide)).2 (by decide) (by decide)⟩⟩

theorem longRunningContract_of_eq {σ α : Type} (submit : Except GoError Poller × σ)
    (wait : Poller → σ → Except GoError α × σ) (onSubmit onWait : GoError → GoError)
    (result : Except GoError α)
    (h : result =
      match submit with
      | (.error err, _) => .error (onSubmit err)
      | (.ok poller, s) =>
        match (wait poller s).1 with
        | .error err => .error (onWait err)
        | .ok d => .ok d) :
    longRunningContract submit wait onSubmit onWait result := by
  subst h
  rcases submit with ⟨err | poller, s⟩
  · refine ⟨?_, ?_, ?_⟩
    · intro d
      constructor
      · intro h
        cases h
      · rintro ⟨h, s', hs, _⟩
        cases hs
    · intro err' s' hs
      cases hs
      rfl
    · intro h s' err' hs
      cases hs
  · refine ⟨?_, ?_, ?_⟩
    · intro d
      constructor
      · intro h
        refine ⟨poller, s, rfl, ?_⟩
        simp only at h
        cases hw : (wait poller s).1 with
        | error err => rw [hw] at h; cases h
        | ok d' => rw [hw] at h; exact h
      · rintro ⟨h, s', hs, hw⟩
        cases hs
        simp only [hw]
    · intro err' s' hs
      cases hs
    · intro h s' err' hs hw
      cases hs
      simp only [hw]

/-- C4 as stated fails. When the wait on the SSH rule ends in the terminal error "boom",
`createSSHRule` does not return that error to its caller but a new one, made with
`fmt.Errorf`, whose text is "cannot get security rule create or update future response:
boom". -/
theorem C4_counterexample_rule_error_is_wrapped :
    (scripted.handle [.fail ⟨"boom"⟩]
        (.securityRulesPollUntilDone
          ⟨["sub-1", "sample-resources-group", "sample-network-security-group",
            "ALLOW-SSH"]⟩)).1
      = .error ⟨"boom"⟩
    ∧ failure
        (SecurityGroups.createSSHRule scripted (SecurityGroups.globalsOf "sub-1" ⟨0⟩)
          (World.init [.succeed, .fail ⟨"boom"⟩])).1
      = some ⟨"cannot get security rule create or update future response: boom"⟩
    ∧ failure
        (SecurityGroups.createSSHRule scripted (SecurityGroups.globalsOf "sub-1" ⟨0⟩)
          (World.init [.succeed, .fail ⟨"boom"⟩])).1
      ≠ some ⟨"boom"⟩ := by
  refine ⟨rfl, ?_, ?_⟩ <;> decide

/-- C4, amended. For every long-running provisioner and for `cleanup`, against any provider:
the function returns a descriptor (a nil error for `cleanup`) if and only if both the submit
call and the wait until the terminal state succeed, and the descriptor is the one the
terminal poll result carries.  When the submit or the wait fails,
`createNetworkSecurityGroup`, `createCluster` and `cleanup` return that error itself; the four
rule provisioners return a new error made with `fmt.Errorf`, whose text is the text of that
error after "cannot create ... security rule: " (submit) or "cannot get security rule create or
update future response: " (wait).  In the activity-log-alert program `cleanup` first
constructs its client: the contract holds once that succeeded, and the error of a failed
construction is returned as it is. -/
theorem C4_long_running_contract {σ : Type} (p : Provider σ) (w : World σ)
    (gs : SecurityGroups.Globals) (gc : Clusters.Globals) (ga : ActivityLogAlert.Globals)
    (cred : Credential) :
    longRunningContract
        (p.handle w.state
          (.securityGroupsBeginCreateOrUpdate gs.securityGroupsClient.subscriptionID
            gs.resourceGroupName gs.securityGroupName (SecurityGroups.securityGroupParameters gs)))
        (fun h s => p.handle s (.securityGroupsPollUntilDone h)) id id
        (SecurityGroups.createNetworkSecurityGroup p gs w).1
    ∧ longRunningContract
        (p.handle w.state
          (.securityRulesBeginCreateOrUpdate gs.securityRulesClient.subscriptionID
            gs.resourceGroupName gs.securityGroupName "ALLOW-SSH"
            SecurityGroups.sshRuleParameters))
        (fun h s => p.handle s (.securityRulesPollUntilDone h))
        (fmtErrorf "cannot create SSH security rule: ")
        (fmtErrorf "cannot get security rule create or update future response: ")
        (SecurityGroups.createSSHRule p gs w).1
    ∧ longRunningContract
        (p.handle w.state
          (.securityRulesBeginCreateOrUpdate gs.securityRulesClient.subscriptionID
            gs.resourceGroupName gs.securityGroupName "ALLOW-HTTP"
            SecurityGroups.httpRuleParameters))
        (fun h s => p.handle s (.securityRulesPollUntilDone h))
        (fmtErrorf "cannot create HTTP security rule: ")
        (fmtErrorf "cannot get security rule create or update future response: ")
        (SecurityGroups.createHTTPRule p gs w).1
    ∧ longRunningContract
        (p.handle w.state
          (.securityRulesBeginCreateOrUpdate gs.securityRulesClient.subscriptionID
            gs.resourceGroupName gs.securityGroupName "ALLOW-SQL"
            SecurityGroups.sqlRuleParameters))
        (fun h s => p.handle s (.securityRulesPollUntilDone h))
        (fmtErrorf "cannot create SQL security rule: ")
        (fmtErrorf "cannot get security rule create or update future response: ")
        (SecurityGroups.createSQLRule p gs w).1
    ∧ longRunningContract
        (p.handle w.state
          (.securityRulesBeginCreateOrUpdate gs.securityRulesClient.subscriptionID
            gs.resourceGroupName gs.securityGroupName "DENY-OUT"
            SecurityGroups.denyOutRuleParameters))
        (fun h s => p.handle s (.securityRulesPollUntilDone h))
        (fmtErrorf "cannot create deny out security rule: ")
        (fmtErrorf "cannot get security rule create or update future response: ")
        (SecurityGroups.createDenyOutRule p gs w).1
    ∧ longRunningContract
        (p.handle w.state
          (.clustersBeginCreateOrUpdate gc.clustersClient.subscriptionID
            gc.resourceGroupName gc.clusterName (Clusters.clusterParameters gc)))
        (fun h s => p.handle s (.clustersPollUntilDone h)) id id
        (Clusters.createCluster p gc w).1
    ∧ longRunningContract
        (p.handle w.state
          (.resourceGroupsBeginDelete gs.resourceGroupClient.subscriptionID
            gs.resourceGroupName))
        (fun h s => p.handle s (.resourceGroupsDeletePollUntilDone h)) id id
        (asResult (SecurityGroups.cleanup p gs w).1)
    ∧ longRunningContract
        (p.handle w.state
          (.resourceGroupsBeginDelete gc.resourceGroupClient.subscriptionID
            gc.resourceGroupName))
        (fun h s => p.handle s (.resourceGroupsDeletePollUntilDone h)) id id
        (asResult (Clusters.cleanup p gc w).1)
    ∧ (∀ u s,
        p.handle w.state (.newResourceGroupsClient ga.subscriptionID cred) = (.ok u, s) →
        longRunningContract
          (p.handle s (.resourceGroupsBeginDelete ga.subscriptionID ga.resourceGroupName))
          (fun h s => p.handle s (.resourceGroupsDeletePollUntilDone h)) id id
          (asResult (ActivityLogAlert.cleanup p ga cred w).1))
    ∧ (∀ err s,
        p.handle w.state (.newResourceGroupsClient ga.subscriptionID cred) = (.error err, s) →
        (ActivityLogAlert.cleanup p ga cred w).1 = some err) := by
  refine ⟨?_, ?_, ?_, ?_, ?_, ?_, ?_, ?_, ?_, ?_⟩
  · apply longRunningContract_of_eq
    simp only [SecurityGroups.createNetworkSecurityGroup, invoke]
    rcases p.handle w.state _ with ⟨err | h, s⟩ <;> simp only [id]
    rcases p.handle s _ with ⟨err | d, s'⟩ <;> simp only []
  · apply longRunningContract_of_eq
    simp only [SecurityGroups.createSSHRule, invoke]
    rcases p.handle w.state _ with ⟨err | h, s⟩ <;> simp only []
    rcases p.handle s _ with ⟨err | d, s'⟩ <;> simp only []
  · apply longRunningContract_of_eq
    simp only [SecurityGroups.createHTTPRule, invoke]
    rcases p.handle w.state _ with ⟨err | h, s⟩ <;> simp only []
    rcases p.handle s _ with ⟨err | d, s'⟩ <;> simp only []
  · apply longRunningContract_of_eq
    simp only [SecurityGroups.createSQLRule, invoke]
    rcases p.handle w.state _ with ⟨err | h, s⟩ <;> simp only []
    rcases p.handle s _ with ⟨err | d, s'⟩ <;> simp only []
  · apply longRunningContract_of_eq
    simp only [SecurityGroups.createDenyOutRule, invoke]
    rcases p.handle w.state _ with ⟨err | h, s⟩ <;> simp only []
    rcases p.handle s _ with ⟨err | d, s'⟩ <;> simp only []
  · apply longRunningContract_of_eq
    simp only [Clusters.createCluster, invoke]
    rcases p.handle w.state _ with ⟨err | h, s⟩ <;> simp only [id]
    rcases p.handle s _ with ⟨err | d, s'⟩ <;> simp only []
  · apply longRunningContract_of_eq
    simp only [SecurityGroups.cleanup, invoke]
    rcases p.handle w.state _ with ⟨err | h, s⟩ <;> simp only [id, asResult]
    rcases p.handle s _ with ⟨err | d, s'⟩ <;> simp only [asResult]
    rfl
  · apply longRunningContract_of_eq
    simp only [Clusters.cleanup, invoke]
    rcases p.handle w.state _ with ⟨err | h, s⟩ <;> simp only [id, asResult]
    rcases p.handle s _ with ⟨err | d, s'⟩ <;> simp only [asResult]
    rfl
  · intro u s hclient
    apply longRunningContract_of_eq
    simp only [ActivityLogAlert.cleanup, invoke, hclient]
    rcases p.handle s _ with ⟨err | h, s1⟩ <;> simp only [id, asResult]
    rcases p.handle s1 _ with ⟨err | d, s'⟩ <;> simp only [asResult]
    rfl
  · intro err s hclient
    simp only [ActivityLogAlert.cleanup, invoke, hclient]

/-- C4 at concrete inputs: a wait that ends in the error "boom" after a successful submit,
for `createNetworkSecurityGroup` (error returned as it is) and `createDenyOutRule` (error
wrapped); and the activity-log-alert `cleanup` whose client construction, submit and wait
succeed. -/
theorem C4_long_running_contract_witness :
    (SecurityGroups.createNetworkSecurityGroup scripted (SecurityGroups.globalsOf "sub-1" ⟨0⟩)
        (World.init [.succeed, .fail ⟨"boom"⟩])).1 = .error ⟨"boom"⟩
    ∧ (SecurityGroups.createDenyOutRule scripted (SecurityGroups.globalsOf "sub-1" ⟨0⟩)
        (World.init [.succeed, .fail ⟨"boom"⟩])).1
      = .error ⟨"cannot get security rule create or update future response: boom"⟩
    ∧ (scripted.handle (World.init ([] : List Reply)).state
        (.newResourceGroupsClient "sub-1" ⟨0⟩) = (.ok (), [])
      ∧ asResult (ActivityLogAlert.cleanup scripted { subscriptionID := "sub-1" } ⟨0⟩
          (World.init [])).1 = .ok ()) :=
  have h := C4_long_running_contract scripted (World.init [.succeed, .fail ⟨"boom"⟩])
    (SecurityGroups.globalsOf "sub-1" ⟨0⟩) (Clusters.globalsOf "sub-1" ⟨0⟩)
    { subscriptionID := "sub-1" } ⟨0⟩
  have h' := C4_long_running_contract scripted (World.init [])
    (SecurityGroups.globalsOf "sub-1" ⟨0⟩) (Clusters.globalsOf "sub-1" ⟨0⟩)
    { subscriptionID := "sub-1" } ⟨0⟩
  ⟨h.1.2.2 _ _ ⟨"boom"⟩ rfl rfl, h.2.2.2.2.1.2.2 _ _ ⟨"boom"⟩ rfl rfl,
    rfl, ((h'.2.2.2.2.2.2.2.2.1 () [] rfl).1 ()).2 ⟨_, _, rfl, rfl⟩⟩

/-- C5. The resource-group ensurer of each program and the two readers hand the provider's
answer to their caller as it is: an error the create-or-update or get call returns is
returned unmodified, with no descriptor, and a descriptor the call returns is returned with
a nil error.  (In the activity-log-alert program the functions first construct their client;
the statement is about the runs in which the remote call is made.) -/
theorem C5_answers_surface_unmodified {σ : Type} (p : Provider σ) (w : World σ)
    (gs : SecurityGroups.Globals) (gc : Clusters.Globals) (ga : ActivityLogAlert.Globals)
    (cred : Credential) :
    (SecurityGroups.createResourceGroup p gs w).1
      = (p.handle w.state
          (.resourceGroupsCreateOrUpdate gs.resourceGroupClient.subscriptionID
            gs.resourceGroupName { location := some gs.location })).1
    ∧ (Clusters.createResourceGroup p gc w).1
      = (p.handle w.state
          (.resourceGroupsCreateOrUpdate gc.resourceGroupClient.subscriptionID
            gc.resourceGroupName { location := some gc.location })).1
    ∧ (Clusters.getCluster p gc w).1
      = (p.handle w.state
          (.clustersGet gc.clustersClient.subscriptionID gc.resourceGroupName
            gc.clusterName)).1
    ∧ (∀ u s,
        p.handle w.state (.newResourceGroupsClient ga.subscriptionID cred) = (.ok u, s) →
        (ActivityLogAlert.createResourceGroup p ga cred w).1
          = (p.handle s
              (.resourceGroupsCreateOrUpdate ga.subscriptionID ga.resourceGroupName
                { location := some ga.location })).1)
    ∧ (∀ u s,
        p.handle w.state (.newActivityLogAlertsClient ga.subscriptionID cred) = (.ok u, s) →
        (ActivityLogAlert.getActivityLogAlert p ga cred w).1
          = (p.handle s
              (.activityLogAlertsGet ga.subscriptionID ga.resourceGroupName
                ga.activityLogAlertName)).1) := by
  refine ⟨?_, ?_, ?_, ?_, ?_⟩
  · simp only [SecurityGroups.createResourceGroup, invoke]
    rcases p.handle w.state _ with ⟨err | d, s⟩ <;> rfl
  · simp only [Clusters.createResourceGroup, invoke]
    rcases p.handle w.state _ with ⟨err | d, s⟩ <;> rfl
  · simp only [Clusters.getCluster, invoke]
    rcases p.handle w.state _ with ⟨err | d, s⟩ <;> rfl
  · intro u s hclient
    simp only [ActivityLogAlert.createResourceGroup, invoke, hclient]
    rcases p.handle s _ with ⟨err | d, s'⟩ <;> rfl
  · intro u s hclient
    simp only [ActivityLogAlert.getActivityLogAlert, invoke, hclient]
    rcases p.handle s _ with ⟨err | d, s'⟩ <;> rfl

/-- C5 at concrete inputs: a create-or-update that fails with "denied" and a get that fails
with "ResourceNotFound", each after a successful client construction. -/
theorem C5_answers_surface_witness :
    (scripted.handle [.succeed, .fail ⟨"denied"⟩] (.newResourceGroupsClient "sub-1" ⟨0⟩)
        = (.ok (), [.fail ⟨"denied"⟩])
      ∧ (ActivityLogAlert.createResourceGroup scripted { subscriptionID := "sub-1" } ⟨0⟩
          (World.init [.succeed, .fail ⟨"denied"⟩])).1 = .error ⟨"denied"⟩)
    ∧ (storeProvider.handle {} (.newActivityLogAlertsClient "sub-1" ⟨0⟩) = (.ok (), {})
      ∧ (ActivityLogAlert.getActivityLogAlert storeProvider { subscriptionID := "sub-1" } ⟨0⟩
          (World.init {})).1 = .error resourceNotFound) :=
  ⟨⟨rfl,
      (C5_answers_surface_unmodified scripted (World.init [.succeed, .fail ⟨"denied"⟩])
        (SecurityGroups.globalsOf "sub-1" ⟨0⟩) (Clusters.globalsOf "sub-1" ⟨0⟩)
        { subscriptionID := "sub-1" } ⟨0⟩).2.2.2.1 () _ rfl⟩,
    ⟨rfl,
      (C5_answers_surface_unmodified storeProvider (World.init {})
        (SecurityGroups.globalsOf "sub-1" ⟨0⟩) (Clusters.globalsOf "sub-1" ⟨0⟩)
        { subscriptionID := "sub-1" } ⟨0⟩).2.2.2.2 () _ rfl⟩⟩

/-- C6. End-to-end activity-log-alert scenario against the storing mock, with subscription
"sub-1" and `KEEP_RESOURCE` unset.  The remote calls are, in order: create group
"sample-resource-group" in "westus" (answered with identifier
`/subscriptions/sub-1/resourceGroups/sample-resource-group`); create alert
"sample-activity-log-alert" in that group with location "global" and the all-of condition
category = Administrative, level = Error; get the alert by the same group and alert name,
which returns the descriptor, and so the identifier, the create returned; delete group
"sample-resource-group"; wait for the delete, which succeeds.  `main` returns (exit status
0) and the store is empty again. -/
theorem C6_activity_log_alert_scenario :
    (ActivityLogAlert.main (envOf [("AZURE_SUBSCRIPTION_ID", "sub-1")]) storeProvider {}).1
      = Exit.ok
    ∧ remoteEvents
        (ActivityLogAlert.main (envOf [("AZURE_SUBSCRIPTION_ID", "sub-1")]) storeProvider
          {}).2.trace
      = [ ⟨.resourceGroupsCreateOrUpdate "sub-1" "sample-resource-group"
              { location := some "westus" },
            .returned (.resourceGroup
              { location := some "westus"
                id := some "/subscriptions/sub-1/resourceGroups/sample-resource-group"
                name := some "sample-resource-group" })⟩,
          ⟨.activityLogAlertsCreateOrUpdate "sub-1" "sample-resource-group"
              "sample-activity-log-alert"
              { location := some "global"
                properties := some
                  { scopes := ["subscriptions/sub-1"]
                    enabled := some true
                    condition := some
                      { allOf :=
                          [ { field := some "category", equals := some "Administrative" },
                            { field := some "level", equals := some "Error" } ] }
                    actions := some { actionGroups := [] }
                    description := some "Sample activity log alert description" } },
            .returned (.activityLogAlert
              { location := some "global"
                properties := some
                  { scopes := ["subscriptions/sub-1"]
                    enabled := some true
                    condition := some
                      { allOf :=
                          [ { field := some "category", equals := some "Administrative" },
                            { field := some "level", equals := some "Error" } ] }
                    actions := some { actionGroups := [] }
                    description := some "Sample activity log alert description" }
                id := some ("/subscriptions/sub-1/resourceGroups/sample-resource-group"
                  ++ "/providers/Microsoft.Insights/activityLogAlerts/sample-activity-log-alert")
                name := some "sample-activity-log-alert" })⟩,
          ⟨.activityLogAlertsGet "sub-1" "sample-resource-group" "sample-activity-log-alert",
            .returned (.activityLogAlert
              { location := some "global"
                properties := some
                  { scopes := ["subscriptions/sub-1"]
                    enabled := some true
                    condition := some
                      { allOf :=
                          [ { field := some "category", equals := some "Administrative" },
                            { field := some "level", equals := some "Error" } ] }
                    actions := some { actionGroups := [] }
                    description := some "Sample activity log alert description" }
                id := some ("/subscriptions/sub-1/resourceGroups/sample-resource-group"
                  ++ "/providers/Microsoft.Insights/activityLogAlerts/sample-activity-log-alert")
                name := some "sample-activity-log-alert" })⟩,
          ⟨.resourceGroupsBeginDelete "sub-1" "sample-resource-group",
            .returned (.poller ⟨["sub-1", "sample-resource-group"]⟩)⟩,
          ⟨.resourceGroupsDeletePollUntilDone ⟨["sub-1", "sample-resource-group"]⟩,
            .returned .unit⟩ ]
    ∧ (remoteEvents
        (ActivityLogAlert.main (envOf [("AZURE_SUBSCRIPTION_ID", "sub-1")]) storeProvider
          {}).2.trace).map Event.returnedID
      = [ some "/subscriptions/sub-1/resourceGroups/sample-resource-group",
          some ("/subscriptions/sub-1/resourceGroups/sample-resource-group"
            ++ "/providers/Microsoft.Insights/activityLogAlerts/sample-activity-log-alert"),
          some ("/subscriptions/sub-1/resourceGroups/sample-resource-group"
            ++ "/providers/Microsoft.Insights/activityLogAlerts/sample-activity-log-alert"),
          none, none ]
    ∧ (ActivityLogAlert.main (envOf [("AZURE_SUBSCRIPTION_ID", "sub-1")]) storeProvider
        {}).2.state = {}
    ∧ (ActivityLogAlert.main (envOf [("AZURE_SUBSCRIPTION_ID", "sub-1")]) storeProvider
        {}).2.log.getLast? = some "cleaned up successfully." := by
  decide

theorem securityGroups_main_congr {σ : Type} (env env' : Env) (p : Provider σ) (s : σ)
    (hsub : osGetenv env "AZURE_SUBSCRIPTION_ID" = osGetenv env' "AZURE_SUBSCRIPTION_ID")
    (hkeep : (goLen (osGetenv env "KEEP_RESOURCE") == 0)
      = (goLen (osGetenv env' "KEEP_RESOURCE") == 0)) :
    SecurityGroups.main env p s = SecurityGroups.main env' p s := by
  simp only [SecurityGroups.main]
  rw [hsub, hkeep]

/-- C7 as stated fails on the count: the program adds four named rules to the security
group one by one, not three. -/
theorem C7_counterexample_four_rules_added :
    (submittedRuleNames
      (SecurityGroups.main (envOf [("AZURE_SUBSCRIPTION_ID", "sub-1")]) storeProvider
        {}).2.trace).length = 4
    ∧ (submittedRuleNames
      (SecurityGroups.main (envOf [("AZURE_SUBSCRIPTION_ID", "sub-1")]) storeProvider
        {}).2.trace).length ≠ 3 := by
  decide

/-- C7, amended. Security-group scenario against the storing mock, which stores each
submitted rule under its name, for the subscription `sub-1` and whatever `KEEP_RESOURCE` is:
the program ends well; it creates the security group with two embedded inbound allow rules
(destination ports 22 and 443), then adds four named rules (ALLOW-SSH, ALLOW-HTTP, ALLOW-SQL,
DENY-OUT); and afterwards, that is in the state the mock has reached when the wait for the
last rule, DENY-OUT, has returned and no delete has begun, each of the six rules is
retrievable by its name with its declared priority and direction: allow_ssh 100 and
allow_https 200 inbound, ALLOW-SSH 103, ALLOW-HTTP 101 and ALLOW-SQL 102 inbound, DENY-OUT 100
outbound. The state is read off the run: answering the calls of the whole trace in order
leads the mock to the final state of the run. -/
theorem C7_security_rules_scenario (env : Env)
    (hsub : osGetenv env "AZURE_SUBSCRIPTION_ID" = "sub-1") :
    (SecurityGroups.main env storeProvider {}).1 = Exit.ok
    ∧ embeddedRules (SecurityGroups.main env storeProvider {}).2.trace
      = [ (some "allow_ssh", some "22", some .allow, some .inbound, some 100),
          (some "allow_https", some "443", some .allow, some .inbound, some 200) ]
    ∧ submittedRuleNames (SecurityGroups.main env storeProvider {}).2.trace
      = ["ALLOW-SSH", "ALLOW-HTTP", "ALLOW-SQL", "DENY-OUT"]
    ∧ stateAfter storeProvider {} (SecurityGroups.main env storeProvider {}).2.trace
      = (SecurityGroups.main env storeProvider {}).2.state
    ∧ (beforeCleanup (SecurityGroups.main env storeProvider {}).2.trace).getLast?.map
        Event.call
      = some
          (.securityRulesPollUntilDone
            ⟨["sub-1", "sample-resources-group", "sample-network-security-group",
              "DENY-OUT"]⟩)
    ∧ [ "allow_ssh", "allow_https", "ALLOW-SSH", "ALLOW-HTTP", "ALLOW-SQL", "DENY-OUT" ].map
        ((stateAfter storeProvider {}
          (beforeCleanup (SecurityGroups.main env storeProvider {}).2.trace)).ruleByName
            "sub-1" "sample-resources-group" "sample-network-security-group")
      = [ some (some "allow_ssh", some 100, some .inbound),
          some (some "allow_https", some 200, some .inbound),
          some (some "ALLOW-SSH", some 103, some .inbound),
          some (some "ALLOW-HTTP", some 101, some .inbound),
          some (some "ALLOW-SQL", some 102, some .inbound),
          some (some "DENY-OUT", some 100, some .outbound) ] := by
  rcases hkeep : (goLen (osGetenv env "KEEP_RESOURCE") == 0) with _ | _
  · rw [securityGroups_main_congr env
      (envOf [("AZURE_SUBSCRIPTION_ID", "sub-1"), ("KEEP_RESOURCE", "1")]) storeProvider {}
      (hsub.trans (by decide)) (hkeep.trans (by decide))]
    refine ⟨by decide, ?_, by decide, ?_, by decide, ?_⟩
    · rfl
    · rfl
    · rfl
  · rw [securityGroups_main_congr env (envOf [("AZURE_SUBSCRIPTION_ID", "sub-1")])
      storeProvider {} (hsub.trans (by decide)) (hkeep.trans (by decide))]
    refine ⟨by decide, ?_, by decide, ?_, by decide, ?_⟩
    · rfl
    · rfl
    · rfl

/-- C7 at a concrete input: the default run, with the subscription `sub-1` and
`KEEP_RESOURCE` unset. It ends with the delete of the resource group, and the six rules are
retrievable in the state the mock is in before that delete. -/
theorem C7_security_rules_witness :
    osGetenv (envOf [("AZURE_SUBSCRIPTION_ID", "sub-1")]) "AZURE_SUBSCRIPTION_ID" = "sub-1"
    ∧ osGetenv (envOf [("AZURE_SUBSCRIPTION_ID", "sub-1")]) "KEEP_RESOURCE" = ""
    ∧ [ "allow_ssh", "allow_https", "ALLOW-SSH", "ALLOW-HTTP", "ALLOW-SQL", "DENY-OUT" ].map
        ((stateAfter storeProvider {}
          (beforeCleanup
            (SecurityGroups.main (envOf [("AZURE_SUBSCRIPTION_ID", "sub-1")]) storeProvider
              {}).2.trace)).ruleByName
            "sub-1" "sample-resources-group" "sample-network-security-group")
      = [ some (some "allow_ssh", some 100, some .inbound),
          some (some "allow_https", some 200, some .inbound),
          some (some "ALLOW-SSH", some 103, some .inbound),
          some (some "ALLOW-HTTP", some 101, some .inbound),
          some (some "ALLOW-SQL", some 102, some .inbound),
          some (some "DENY-OUT", some 100, some .outbound) ] :=
  ⟨by decide, by decide,
    (C7_security_rules_scenario (envOf [("AZURE_SUBSCRIPTION_ID", "sub-1")])
      (by decide)).2.2.2.2.2⟩

theorem invoke_eq {σ : Type} (p : Provider σ) (c : Call) (w : World σ) :
    invoke p c w =
      ((p.handle w.state c).1,
        { state := (p.handle w.state c).2
          trace := w.trace ++ [⟨c, c.outcome (p.handle w.state c).1⟩]
          log := w.log }) := by
  unfold invoke
  rcases p.handle w.state c with ⟨err | r, s⟩ <;> rfl

theorem securityGroups_createResourceGroup_eq {σ : Type} (p : Provider σ)
    (g : SecurityGroups.Globals) (w : World σ) :
    SecurityGroups.createResourceGroup p g w =
      invoke p
        (.resourceGroupsCreateOrUpdate g.resourceGroupClient.subscriptionID g.resourceGroupName
          { location := some g.location }) w := by
  unfold SecurityGroups.createResourceGroup
  rcases invoke p _ w with ⟨err | r, w'⟩ <;> rfl

theorem clusters_createResourceGroup_eq {σ : Type} (p : Provider σ)
    (g : Clusters.Globals) (w : World σ) :
    Clusters.createResourceGroup p g w =
      invoke p
        (.resourceGroupsCreateOrUpdate g.resourceGroupClient.subscriptionID g.resourceGroupName
          { location := some g.location }) w := by
  unfold Clusters.createResourceGroup
  rcases invoke p _ w with ⟨err | r, w'⟩ <;> rfl

theorem activityLogAlert_createResourceGroup_eq {σ : Type} (p : Provider σ)
    (g : ActivityLogAlert.Globals) (cred : Credential) (w : World σ) :
    ActivityLogAlert.createResourceGroup p g cred w =
      match (p.handle w.state (.newResourceGroupsClient g.subscriptionID cred)).1 with
      | .error err =>
        (.error err, (invoke p (.newResourceGroupsClient g.subscriptionID cred) w).2)
      | .ok _ =>
        invoke p
          (.resourceGroupsCreateOrUpdate g.subscriptionID g.resourceGroupName
            { location := some g.location })
          (invoke p (.newResourceGroupsClient g.subscriptionID cred) w).2 := by
  unfold ActivityLogAlert.createResourceGroup
  rw [invoke_eq p (.newResourceGroupsClient g.subscriptionID cred) w]
  rcases p.handle w.state (.newResourceGroupsClient g.subscriptionID cred) with ⟨err | u, s⟩
  · rfl
  · simp only []
    rcases invoke p _ _ with ⟨err | r, w'⟩ <;> rfl

theorem rationed_answersByRequest :
    answersByRequest rationed [.resourceGroupsCreateOrUpdate] := by
  intro st st' c hc
  cases c <;> simp only [Call.op, List.mem_singleton, reduceCtorEq] at hc <;> rfl

/-- C8 as stated fails for the activity-log-alert program, whose ensurer constructs its
resource-groups client on every invocation. The mock `rationed` answers every create-or-update
by the request alone; started with one client left, the first invocation of
`createResourceGroup` submits the request and returns a descriptor, the second fails when it
constructs its client: it submits no request and returns an error. -/
theorem C8_counterexample_client_construction_fails :
    answersByRequest rationed [.resourceGroupsCreateOrUpdate]
    ∧ (ActivityLogAlert.createResourceGroup rationed { subscriptionID := "sub-1" } ⟨0⟩
        (World.init 1)).1
      = .ok
          { location := some "westus"
            id := some "id"
            name := some "sample-resource-group" }
    ∧ (ActivityLogAlert.createResourceGroup rationed { subscriptionID := "sub-1" } ⟨0⟩
        (ActivityLogAlert.createResourceGroup rationed { subscriptionID := "sub-1" } ⟨0⟩
          (World.init 1)).2).1
      = .error ⟨"no client left"⟩
    ∧ (allOps
        (ActivityLogAlert.createResourceGroup rationed { subscriptionID := "sub-1" } ⟨0⟩
          (ActivityLogAlert.createResourceGroup rationed { subscriptionID := "sub-1" } ⟨0⟩
            (World.init 1)).2).2.trace)
      = [.newResourceGroupsClient, .resourceGroupsCreateOrUpdate, .newResourceGroupsClient] :=
  ⟨rationed_answersByRequest, rfl, rfl, by decide⟩

/-- C8, amended. Idempotence of the resource-group ensurer. For every configuration (any
name and location) and every provider whose answer to a create-or-update of a resource group
is a function of the request, two invocations of `createResourceGroup` in a row submit the
identical request (the same call, recorded with the same answer) and return the same result,
hence a descriptor with the same identifier. In the activity-log-alert program, whose ensurer
first constructs its resource-groups client, this holds when the construction succeeds in
both invocations; each invocation then records the construction followed by the request. -/
theorem C8_ensurer_idempotent {σ : Type} (p : Provider σ) (w : World σ)
    (gs : SecurityGroups.Globals) (gc : Clusters.Globals) (ga : ActivityLogAlert.Globals)
    (cred : Credential) :
    (answersByRequest p [.resourceGroupsCreateOrUpdate] →
      (∃ ev : Event,
        ev.call = .resourceGroupsCreateOrUpdate gs.resourceGroupClient.subscriptionID
          gs.resourceGroupName { location := some gs.location }
        ∧ (SecurityGroups.createResourceGroup p gs w).2.trace = w.trace ++ [ev]
        ∧ (SecurityGroups.createResourceGroup p gs
            (SecurityGroups.createResourceGroup p gs w).2).2.trace = w.trace ++ [ev] ++ [ev])
      ∧ (SecurityGroups.createResourceGroup p gs
          (SecurityGroups.createResourceGroup p gs w).2).1
        = (SecurityGroups.createResourceGroup p gs w).1)
    ∧ (answersByRequest p [.resourceGroupsCreateOrUpdate] →
      (∃ ev : Event,
        ev.call = .resourceGroupsCreateOrUpdate gc.resourceGroupClient.subscriptionID
          gc.resourceGroupName { location := some gc.location }
        ∧ (Clusters.createResourceGroup p gc w).2.trace = w.trace ++ [ev]
        ∧ (Clusters.createResourceGroup p gc
            (Clusters.createResourceGroup p gc w).2).2.trace = w.trace ++ [ev] ++ [ev])
      ∧ (Clusters.createResourceGroup p gc (Clusters.createResourceGroup p gc w).2).1
        = (Clusters.createResourceGroup p gc w).1)
    ∧ (answersByRequest p [.resourceGroupsCreateOrUpdate] →
      (p.handle w.state (.newResourceGroupsClient ga.subscriptionID cred)).1 = .ok () →
      (p.handle (ActivityLogAlert.createResourceGroup p ga cred w).2.state
        (.newResourceGroupsClient ga.subscriptionID cred)).1 = .ok () →
      (∃ ev : Event,
        ev.call = .resourceGroupsCreateOrUpdate ga.subscriptionID ga.resourceGroupName
          { location := some ga.location }
        ∧ (ActivityLogAlert.createResourceGroup p ga cred w).2.trace
          = w.trace
            ++ [⟨.newResourceGroupsClient ga.subscriptionID cred, .returned .unit⟩, ev]
        ∧ (ActivityLogAlert.createResourceGroup p ga cred
            (ActivityLogAlert.createResourceGroup p ga cred w).2).2.trace
          = w.trace
            ++ [⟨.newResourceGroupsClient ga.subscriptionID cred, .returned .unit⟩, ev]
            ++ [⟨.newResourceGroupsClient ga.subscriptionID cred, .returned .unit⟩, ev])
      ∧ (ActivityLogAlert.createResourceGroup p ga cred
          (ActivityLogAlert.createResourceGroup p ga cred w).2).1
        = (ActivityLogAlert.createResourceGroup p ga cred w).1) := by
  refine ⟨?_, ?_, ?_⟩
  · intro hfun
    have hsame := fun st st' => hfun st st'
      (.resourceGroupsCreateOrUpdate gs.resourceGroupClient.subscriptionID
        gs.resourceGroupName { location := some gs.location }) (List.mem_singleton.2 rfl)
    simp only [securityGroups_createResourceGroup_eq, invoke_eq]
    rw [hsame (p.handle w.state _).2 w.state]
    exact ⟨⟨_, rfl, rfl, rfl⟩, rfl⟩
  · intro hfun
    have hsame := fun st st' => hfun st st'
      (.resourceGroupsCreateOrUpdate gc.resourceGroupClient.subscriptionID
        gc.resourceGroupName { location := some gc.location }) (List.mem_singleton.2 rfl)
    simp only [clusters_createResourceGroup_eq, invoke_eq]
    rw [hsame (p.handle w.state _).2 w.state]
    exact ⟨⟨_, rfl, rfl, rfl⟩, rfl⟩
  · intro hfun hfirst hsecond
    have hsame := fun st st' => hfun st st'
      (.resourceGroupsCreateOrUpdate ga.subscriptionID ga.resourceGroupName
        { location := some ga.location }) (List.mem_singleton.2 rfl)
    simp only [activityLogAlert_createResourceGroup_eq, invoke_eq, hfirst] at hsecond ⊢
    simp only [hsecond]
    generalize hs1 :
      (p.handle w.state (Call.newResourceGroupsClient ga.subscriptionID cred)).2 = s1
    generalize hs2 :
      (p.handle s1
        (Call.resourceGroupsCreateOrUpdate ga.subscriptionID ga.resourceGroupName
          { location := some ga.location })).2 = s2
    generalize hs3 :
      (p.handle s2 (Call.newResourceGroupsClient ga.subscriptionID cred)).2 = s3
    rw [hsame s3 s1]
    refine ⟨⟨⟨Call.resourceGroupsCreateOrUpdate ga.subscriptionID ga.resourceGroupName
          { location := some ga.location },
        (Call.resourceGroupsCreateOrUpdate ga.subscriptionID ga.resourceGroupName
          { location := some ga.location }).outcome
          (p.handle s1
            (Call.resourceGroupsCreateOrUpdate ga.subscriptionID ga.resourceGroupName
              { location := some ga.location })).1⟩, rfl, ?_, ?_⟩, rfl⟩
    · simp only [List.append_assoc, List.cons_append, List.nil_append]
      rfl
    · simp only [List.append_assoc, List.cons_append, List.nil_append]
      rfl

theorem storeProvider_answersByRequest :
    answersByRequest storeProvider [.resourceGroupsCreateOrUpdate] := by
  intro st st' c hc
  cases c <;> simp only [Call.op, List.mem_singleton, reduceCtorEq] at hc <;> rfl

/-- C8 at a concrete input: the storing mock answers a create-or-update of a resource group
by the request alone and constructs every client, and two invocations of the
activity-log-alert ensurer return the same descriptor, with identifier
`/subscriptions/sub-1/resourceGroups/sample-resource-group`. -/
theorem C8_ensurer_idempotent_witness :
    answersByRequest storeProvider [.resourceGroupsCreateOrUpdate]
    ∧ (storeProvider.handle (World.init ({} : Store)).state
        (.newResourceGroupsClient "sub-1" ⟨0⟩)).1 = .ok ()
    ∧ (storeProvider.handle
        (ActivityLogAlert.createResourceGroup storeProvider { subscriptionID := "sub-1" } ⟨0⟩
          (World.init {})).2.state
        (.newResourceGroupsClient "sub-1" ⟨0⟩)).1 = .ok ()
    ∧ (ActivityLogAlert.createResourceGroup storeProvider { subscriptionID := "sub-1" } ⟨0⟩
        (ActivityLogAlert.createResourceGroup storeProvider { subscriptionID := "sub-1" } ⟨0⟩
          (World.init {})).2).1
      = (ActivityLogAlert.createResourceGroup storeProvider { subscriptionID := "sub-1" } ⟨0⟩
          (World.init {})).1
    ∧ (ActivityLogAlert.createResourceGroup storeProvider { subscriptionID := "sub-1" } ⟨0⟩
          (World.init {})).1
      = .ok
          { location := some "westus"
            id := some "/subscriptions/sub-1/resourceGroups/sample-resource-group"
            name := some "sample-resource-group" } :=
  ⟨storeProvider_answersByRequest, rfl, rfl,
    ((C8_ensurer_idempotent storeProvider (World.init {})
      (SecurityGroups.globalsOf "sub-1" ⟨0⟩) (Clusters.globalsOf "sub-1" ⟨0⟩)
      { subscriptionID := "sub-1" } ⟨0⟩).2.2 storeProvider_answersByRequest rfl rfl).2,
    rfl⟩

theorem Store.resourcesIn_deleteGroup (sub rg : String) (st : Store) :
    (st.deleteGroup sub rg).resourcesIn sub rg = [] := by
  simp only [Store.resourcesIn, Store.deleteGroup, List.filter_filter, List.append_eq_nil,
    List.map_eq_nil_iff, List.filter_eq_nil_iff]
  refine ⟨⟨⟨⟨?_, ?_⟩, ?_⟩, ?_⟩, ?_⟩ <;> intro entry _ <;> simp

theorem storeProvider_beginDelete (st st' : Store) (sub rg : String) (h : Poller)
    (hdel : storeProvider.handle st (.resourceGroupsBeginDelete sub rg) = (.ok h, st')) :
    st' = st.deleteGroup sub rg := by
  simp only [storeProvider, Store.handle] at hdel
  split at hdel
  · cases hdel
  · cases hdel
    rfl

theorem storeProvider_deletePoll (st st' : Store) (h : Poller)
    (r : Except GoError Unit)
    (hpoll : storeProvider.handle st (.resourceGroupsDeletePollUntilDone h) = (r, st')) :
    st' = st := by
  simp only [storeProvider, Store.handle] at hpoll
  split at hpoll
  · split at hpoll <;> cases hpoll <;> rfl
  · cases hpoll
    rfl

theorem delete_of_confinedTo (sub rg : String) (trace : List Event)
    (h : confinedTo sub rg trace) :
    ∀ ev ∈ trace, ev.call.op = .resourceGroupsBeginDelete →
      ev.call = .resourceGroupsBeginDelete sub rg := by
  intro ev hev hop
  have hscope := h ev hev
  rcases ev with ⟨call, outcome⟩
  cases call <;> simp only [Call.op, reduceCtorEq] at hop
  have := hscope _ rfl
  simp only [Prod.mk.injEq] at this
  rw [this.1, this.2]

theorem store_empty_after_cleanup (rg : String) (env : Env) (result : Exit × World Store)
    (h : result.1 = Exit.ok → (goLen (osGetenv env "KEEP_RESOURCE") == 0) = true →
      ∃ st h st' u,
        storeProvider.handle st
            (.resourceGroupsBeginDelete (osGetenv env "AZURE_SUBSCRIPTION_ID") rg) = (.ok h, st')
          ∧ storeProvider.handle st' (.resourceGroupsDeletePollUntilDone h)
            = (.ok u, result.2.state))
    (hok : result.1 = Exit.ok) (hkeep : osGetenv env "KEEP_RESOURCE" = "") :
    result.2.state.resourcesIn (osGetenv env "AZURE_SUBSCRIPTION_ID") rg = [] := by
  obtain ⟨st, poller, st', u, hdel, hpoll⟩ := h hok ((keepUnset_iff env).2 hkeep)
  rw [storeProvider_deletePoll _ _ _ _ hpoll, storeProvider_beginDelete _ _ _ _ _ hdel]
  exact Store.resourcesIn_deleteGroup _ _ _

/-- C9. In each program every call that addresses a resource group (the creation of the
group, the creation and the read-back of each dependent resource, the delete) addresses the
one group of the program in the configured subscription, and a delete is only ever the delete
of that group: the programs issue no call that deletes a single resource.  Against the
storing mock, in which deleting a group removes its members, whatever the store held before:
after a run that ends well with `KEEP_RESOURCE` unset, the store holds neither the group nor
any resource in it. -/
theorem C9_one_group_deleted_as_a_whole {σ : Type} (env : Env) (p : Provider σ) (s : σ)
    (st : Store) :
    (confinedTo (osGetenv env "AZURE_SUBSCRIPTION_ID") "sample-resource-group"
        (ActivityLogAlert.main env p s).2.trace
      ∧ confinedTo (osGetenv env "AZURE_SUBSCRIPTION_ID") "sample-resources-group"
        (SecurityGroups.main env p s).2.trace
      ∧ confinedTo (osGetenv env "AZURE_SUBSCRIPTION_ID") "sample-resource-group"
        (Clusters.main env p s).2.trace)
    ∧ ((∀ ev ∈ (ActivityLogAlert.main env p s).2.trace,
          ev.call.op = .resourceGroupsBeginDelete →
          ev.call = .resourceGroupsBeginDelete (osGetenv env "AZURE_SUBSCRIPTION_ID")
            "sample-resource-group")
      ∧ (∀ ev ∈ (SecurityGroups.main env p s).2.trace,
          ev.call.op = .resourceGroupsBeginDelete →
          ev.call = .resourceGroupsBeginDelete (osGetenv env "AZURE_SUBSCRIPTION_ID")
            "sample-resources-group")
      ∧ (∀ ev ∈ (Clusters.main env p s).2.trace,
          ev.call.op = .resourceGroupsBeginDelete →
          ev.call = .resourceGroupsBeginDelete (osGetenv env "AZURE_SUBSCRIPTION_ID")
            "sample-resource-group"))
    ∧ (((ActivityLogAlert.main env storeProvider st).1 = Exit.ok →
          osGetenv env "KEEP_RESOURCE" = "" →
          (ActivityLogAlert.main env storeProvider st).2.state.resourcesIn
            (osGetenv env "AZURE_SUBSCRIPTION_ID") "sample-resource-group" = [])
      ∧ ((SecurityGroups.main env storeProvider st).1 = Exit.ok →
          osGetenv env "KEEP_RESOURCE" = "" →
          (SecurityGroups.main env storeProvider st).2.state.resourcesIn
            (osGetenv env "AZURE_SUBSCRIPTION_ID") "sample-resources-group" = [])
      ∧ ((Clusters.main env storeProvider st).1 = Exit.ok →
          osGetenv env "KEEP_RESOURCE" = "" →
          (Clusters.main env storeProvider st).2.state.resourcesIn
            (osGetenv env "AZURE_SUBSCRIPTION_ID") "sample-resource-group" = [])) := by
  have ha := (confinedTo_iff_view _ _ _).2 (activityLogAlert_main_summary env p s).1.2.2.1
  have hs := (confinedTo_iff_view _ _ _).2 (securityGroups_main_summary env p s).1.2.2.1
  have hc := (confinedTo_iff_view _ _ _).2 (clusters_main_summary env p s).1.2.2.1
  exact ⟨⟨ha, hs, hc⟩,
    ⟨delete_of_confinedTo _ _ _ ha, delete_of_confinedTo _ _ _ hs,
      delete_of_confinedTo _ _ _ hc⟩,
    ⟨store_empty_after_cleanup _ env _ (activityLogAlert_main_summary env storeProvider st).2,
      store_empty_after_cleanup _ env _ (securityGroups_main_summary env storeProvider st).2,
      store_empty_after_cleanup _ env _ (clusters_main_summary env storeProvider st).2⟩⟩

/-- C9 at concrete inputs.  Started on a store that already holds the group with a stale
alert, the activity-log-alert program ends well and leaves nothing of the group; with
`KEEP_RESOURCE` set the security-groups program leaves the group, the security group and its
six rules, all under the one group. -/
theorem C9_one_group_witness :
    ((ActivityLogAlert.main (envOf [("AZURE_SUBSCRIPTION_ID", "sub-1")]) storeProvider
          { groups := [(("sub-1", "sample-resource-group"), { location := some "westus" })]
            alerts := [(("sub-1", "sample-resource-group", "stale"), {})] }).1 = Exit.ok
      ∧ osGetenv (envOf [("AZURE_SUBSCRIPTION_ID", "sub-1")]) "KEEP_RESOURCE" = ""
      ∧ (ActivityLogAlert.main (envOf [("AZURE_SUBSCRIPTION_ID", "sub-1")]) storeProvider
          { groups := [(("sub-1", "sample-resource-group"), { location := some "westus" })]
            alerts := [(("sub-1", "sample-resource-group", "stale"), {})] }).2.state.resourcesIn
          (osGetenv (envOf [("AZURE_SUBSCRIPTION_ID", "sub-1")]) "AZURE_SUBSCRIPTION_ID")
          "sample-resource-group" = [])
    ∧ ((SecurityGroups.main
          (envOf [("AZURE_SUBSCRIPTION_ID", "sub-1"), ("KEEP_RESOURCE", "1")]) storeProvider
          {}).2.state.resourcesIn "sub-1" "sample-resources-group").length = 8 :=
  ⟨⟨by decide, by decide,
      (C9_one_group_deleted_as_a_whole (envOf [("AZURE_SUBSCRIPTION_ID", "sub-1")])
        storeProvider
        { groups := [(("sub-1", "sample-resource-group"), { location := some "westus" })]
          alerts := [(("sub-1", "sample-resource-group", "stale"), {})] }
        { groups := [(("sub-1", "sample-resource-group"), { location := some "westus" })]
          alerts := [(("sub-1", "sample-resource-group", "stale"), {})] }).2.2.1
        (by decide) (by decide)⟩,
    by decide⟩

/-- C10 as stated fails. In the activity-log-alert program run against a provider whose
every call succeeds, but whose resource-group descriptor carries no `ID`, no step returns an
error, yet the process does not exit with status 0: `*resourceGroup.ID` panics (status 2). -/
theorem C10_counterexample_nil_id_exits_nonzero :
    osGetenv (envOf [("AZURE_SUBSCRIPTION_ID", "sub-1")]) "AZURE_SUBSCRIPTION_ID" ≠ ""
    ∧ allSucceeded
        (ActivityLogAlert.main (envOf [("AZURE_SUBSCRIPTION_ID", "sub-1")]) scripted
          [.succeed, .succeed, .succeedWithoutID]).2.trace
    ∧ (ActivityLogAlert.main (envOf [("AZURE_SUBSCRIPTION_ID", "sub-1")]) scripted
          [.succeed, .succeed, .succeedWithoutID]).1.code = 2 := by
  decide

/-- C10, amended. For every environment and every provider, in a run in which every returned
descriptor carries an identifier, each program exits with status 0 if and only if every step
it performs succeeds (the subscription is configured and no call returns an error); and in
every run, a missing subscription or a call that returns an error gives a non-zero exit
status. -/
theorem C10_exit_status {σ : Type} (env : Env) (p : Provider σ) (s : σ) :
    ((identified (ActivityLogAlert.main env p s).2.trace →
        ((ActivityLogAlert.main env p s).1.code = 0 ↔
          osGetenv env "AZURE_SUBSCRIPTION_ID" ≠ ""
            ∧ allSucceeded (ActivityLogAlert.main env p s).2.trace))
      ∧ (osGetenv env "AZURE_SUBSCRIPTION_ID" = ""
          ∨ ¬ allSucceeded (ActivityLogAlert.main env p s).2.trace →
        (ActivityLogAlert.main env p s).1.code ≠ 0))
    ∧ ((identified (SecurityGroups.main env p s).2.trace →
        ((SecurityGroups.main env p s).1.code = 0 ↔
          osGetenv env "AZURE_SUBSCRIPTION_ID" ≠ ""
            ∧ allSucceeded (SecurityGroups.main env p s).2.trace))
      ∧ (osGetenv env "AZURE_SUBSCRIPTION_ID" = ""
          ∨ ¬ allSucceeded (SecurityGroups.main env p s).2.trace →
        (SecurityGroups.main env p s).1.code ≠ 0))
    ∧ ((identified (Clusters.main env p s).2.trace →
        ((Clusters.main env p s).1.code = 0 ↔
          osGetenv env "AZURE_SUBSCRIPTION_ID" ≠ ""
            ∧ allSucceeded (Clusters.main env p s).2.trace))
      ∧ (osGetenv env "AZURE_SUBSCRIPTION_ID" = ""
          ∨ ¬ allSucceeded (Clusters.main env p s).2.trace →
        (Clusters.main env p s).1.code ≠ 0)) := by
  have key : ∀ (rg : String) (result : Exit × World σ),
      (result.1.code = 0 →
        (goLen (osGetenv env "AZURE_SUBSCRIPTION_ID") == 0) = false
          ∧ (∀ v ∈ result.2.trace.map (Event.view (osGetenv env "AZURE_SUBSCRIPTION_ID") rg),
              v.failed = false)
          ∧ ∀ v ∈ result.2.trace.map (Event.view (osGetenv env "AZURE_SUBSCRIPTION_ID") rg),
              v.missingID = false) →
      ((goLen (osGetenv env "AZURE_SUBSCRIPTION_ID") == 0) = false →
        (∀ v ∈ result.2.trace.map (Event.view (osGetenv env "AZURE_SUBSCRIPTION_ID") rg),
            v.failed = false) →
        (∀ v ∈ result.2.trace.map (Event.view (osGetenv env "AZURE_SUBSCRIPTION_ID") rg),
            v.missingID = false) → result.1.code = 0) →
      (identified result.2.trace →
        (result.1.code = 0 ↔
          osGetenv env "AZURE_SUBSCRIPTION_ID" ≠ "" ∧ allSucceeded result.2.trace))
      ∧ (osGetenv env "AZURE_SUBSCRIPTION_ID" = "" ∨ ¬ allSucceeded result.2.trace →
        result.1.code ≠ 0) := by
    intro rg result hto hfrom
    constructor
    · intro hids
      constructor
      · intro hcode
        have h := hto hcode
        exact ⟨(noSubscription_iff env).1 h.1, (allSucceeded_iff_view _ rg _).2 h.2.1⟩
      · intro h
        exact hfrom ((noSubscription_iff env).2 h.1) ((allSucceeded_iff_view _ rg _).1 h.2)
          ((identified_iff_view _ rg _).1 hids)
    · intro h hcode
      have h' := hto hcode
      rcases h with h | h
      · exact (noSubscription_iff env).1 h'.1 h
      · exact h ((allSucceeded_iff_view _ rg _).2 h'.2.1)
  have ha := (activityLogAlert_main_summary env p s).1
  have hs := (securityGroups_main_summary env p s).1
  have hc := (clusters_main_summary env p s).1
  exact ⟨key _ _ ha.2.2.2.1 ha.2.2.2.2.1, key _ _ hs.2.2.2.1 hs.2.2.2.2.1,
    key _ _ hc.2.2.2.1 hc.2.2.2.2.1⟩

/-- C10 at a concrete input: against the storing mock every descriptor carries an
identifier and the three programs exit with status 0. -/
theorem C10_exit_status_witness :
    (identified
        (ActivityLogAlert.main (envOf [("AZURE_SUBSCRIPTION_ID", "sub-1")]) storeProvider
          {}).2.trace
      ∧ (ActivityLogAlert.main (envOf [("AZURE_SUBSCRIPTION_ID", "sub-1")]) storeProvider
          {}).1.code = 0)
    ∧ (identified
        (SecurityGroups.main (envOf [("AZURE_SUBSCRIPTION_ID", "sub-1")]) storeProvider
          {}).2.trace
      ∧ (SecurityGroups.main (envOf [("AZURE_SUBSCRIPTION_ID", "sub-1")]) storeProvider
          {}).1.code = 0)
    ∧ (identified
        (Clusters.main (envOf [("AZURE_SUBSCRIPTION_ID", "sub-1")]) storeProvider {}).2.trace
      ∧ (Clusters.main (envOf [("AZURE_SUBSCRIPTION_ID", "sub-1")]) storeProvider
          {}).1.code = 0) :=
  ⟨⟨by decide,
      (((C10_exit_status (envOf [("AZURE_SUBSCRIPTION_ID", "sub-1")]) storeProvider {}).1.1
        (by decide)).2 ⟨by decide, by decide⟩)⟩,
    ⟨by decide,
      (((C10_exit_status (envOf [("AZURE_SUBSCRIPTION_ID", "sub-1")]) storeProvider {}).2.1.1
        (by decide)).2 ⟨by decide, by decide⟩)⟩,
    ⟨by decide,
      (((C10_exit_status (envOf [("AZURE_SUBSCRIPTION_ID", "sub-1")]) storeProvider {}).2.2.1
        (by decide)).2 ⟨by decide, by decide⟩)⟩⟩

/-! ## Security rules of the securitygroups program -/

attribute [simp] submittedRules Call.submittedRules SecurityRule.view
  SecurityGroups.securityGroupParameters SecurityGroups.sshRuleParameters
  SecurityGroups.httpRuleParameters SecurityGroups.sqlRuleParameters
  SecurityGroups.denyOutRuleParameters

set_option maxHeartbeats 4000000 in
theorem securityGroups_main_rules {σ : Type} (env : Env) (p : Provider σ) (s : σ) :
    RuleFacts (SecurityGroups.main env p s).1.code
      (submittedRules
        (osGetenv env "AZURE_SUBSCRIPTION_ID", "sample-resources-group",
          "sample-network-security-group")
        (SecurityGroups.main env p s).2.trace) := by
  simp only [SecurityGroups.main, SecurityGroups.createResourceGroup,
    SecurityGroups.createNetworkSecurityGroup, SecurityGroups.createSSHRule,
    SecurityGroups.createHTTPRule, SecurityGroups.createSQLRule,
    SecurityGroups.createDenyOutRule, SecurityGroups.cleanup, World.init, logPrintln, invoke]
  split
  · simp [*]
    decide
  · rcases h0 : p.handle s Call.newDefaultAzureCredential with ⟨_ | _, _⟩ <;> simp only []
    all_goals repeat' first
      | (generalize hk : p.handle _ _ = x
         fail_if_success (have : p.handle s Call.newDefaultAzureCredential = x := hk)
         rcases x with ⟨e | r, s'⟩ <;> simp only [] <;>
           try (rcases hid : r.id with _ | id <;> simp only [hid]))
      | split
    all_goals
      simp [*]
      decide

/-- C11. In every run of the securitygroups program, against any provider, the security
rules it submits (the rules embedded in the security-group descriptor and the rules submitted
one by one, in order) are all submitted for the one security group
`sample-network-security-group` of the resource group `sample-resources-group`; no two of
them with the same direction share a priority; no two share a name; every priority lies in
100..4096; and two rules share a priority only when it is 100, the earlier rule is inbound
and the later one outbound. A run that ends well has submitted exactly six rules: allow_ssh
(inbound, 100) and allow_https (inbound, 200) embedded in the group, then ALLOW-SSH (inbound,
103), ALLOW-HTTP (inbound, 101), ALLOW-SQL (inbound, 102) and DENY-OUT (outbound, 100). -/
theorem C11_rule_names_and_priorities {σ : Type} (env : Env) (p : Provider σ) (s : σ) :
    (∀ rule ∈ submittedRules
        (osGetenv env "AZURE_SUBSCRIPTION_ID", "sample-resources-group",
          "sample-network-security-group")
        (SecurityGroups.main env p s).2.trace, rule.inGroup = true)
    ∧ (submittedRules
        (osGetenv env "AZURE_SUBSCRIPTION_ID", "sample-resources-group",
          "sample-network-security-group")
        (SecurityGroups.main env p s).2.trace).Pairwise
          (fun a b => a.direction = b.direction → a.priority ≠ b.priority)
    ∧ ((submittedRules
        (osGetenv env "AZURE_SUBSCRIPTION_ID", "sample-resources-group",
          "sample-network-security-group")
        (SecurityGroups.main env p s).2.trace).map RuleView.name).Nodup
    ∧ (∀ rule ∈ submittedRules
        (osGetenv env "AZURE_SUBSCRIPTION_ID", "sample-resources-group",
          "sample-network-security-group")
        (SecurityGroups.main env p s).2.trace,
          ∃ value, rule.priority = some value ∧ 100 ≤ value ∧ value ≤ 4096)
    ∧ (submittedRules
        (osGetenv env "AZURE_SUBSCRIPTION_ID", "sample-resources-group",
          "sample-network-security-group")
        (SecurityGroups.main env p s).2.trace).Pairwise
          (fun a b => a.priority = b.priority →
            a.priority = some 100 ∧ a.direction = some .inbound
              ∧ b.direction = some .outbound)
    ∧ ((SecurityGroups.main env p s).1 = Exit.ok →
        submittedRules
          (osGetenv env "AZURE_SUBSCRIPTION_ID", "sample-resources-group",
            "sample-network-security-group")
          (SecurityGroups.main env p s).2.trace
        = [ ⟨some "allow_ssh", some .inbound, some 100, true⟩,
            ⟨some "allow_https", some .inbound, some 200, true⟩,
            ⟨some "ALLOW-SSH", some .inbound, some 103, true⟩,
            ⟨some "ALLOW-HTTP", some .inbound, some 101, true⟩,
            ⟨some "ALLOW-SQL", some .inbound, some 102, true⟩,
            ⟨some "DENY-OUT", some .outbound, some 100, true⟩ ]) := by
  obtain ⟨hgroup, hdirection, hname, hrange, hrepeat, hsix⟩ := securityGroups_main_rules env p s
  refine ⟨hgroup, hdirection, hname, ?_, hrepeat, ?_⟩
  · intro rule hrule
    have h := hrange rule hrule
    rcases hp : rule.priority with _ | value
    · rw [hp] at h
      exact h.elim
    · rw [hp] at h
      exact ⟨value, rfl, h⟩
  · intro hok
    apply hsix
    rw [hok]
    rfl

/-- C11 at a concrete input: against the storing mock, with the subscription `sub-1`, the
run ends well and has submitted the six rules. -/
theorem C11_rule_names_and_priorities_witness :
    (SecurityGroups.main (envOf [("AZURE_SUBSCRIPTION_ID", "sub-1")]) storeProvider {}).1
      = Exit.ok
    ∧ submittedRules
        (osGetenv (envOf [("AZURE_SUBSCRIPTION_ID", "sub-1")]) "AZURE_SUBSCRIPTION_ID",
          "sample-resources-group", "sample-network-security-group")
        (SecurityGroups.main (envOf [("AZURE_SUBSCRIPTION_ID", "sub-1")]) storeProvider
          {}).2.trace
      = [ ⟨some "allow_ssh", some .inbound, some 100, true⟩,
          ⟨some "allow_https", some .inbound, some 200, true⟩,
          ⟨some "ALLOW-SSH", some .inbound, some 103, true⟩,
          ⟨some "ALLOW-HTTP", some .inbound, some 101, true⟩,
          ⟨some "ALLOW-SQL", some .inbound, some 102, true⟩,
          ⟨some "DENY-OUT", some .outbound, some 100, true⟩ ] :=
  ⟨by decide,
    (C11_rule_names_and_priorities (envOf [("AZURE_SUBSCRIPTION_ID", "sub-1")]) storeProvider
      {}).2.2.2.2.2 (by decide)⟩

end AzureSamples
